import Mathlib

/-!
Verification development for the TeslaJustice case-deduplication pipeline.

The TypeScript modules `caseManagement` and `socialMediaIntegration` are
embedded shallowly: pure helpers become Lean functions, the Supabase-backed
persistence layer becomes explicit state passing over a `DB` record, and a
fallible repository call is modelled by an `Env` flag that makes that call
fail; every operation returns the final database next to an `Except` value,
so writes performed before a failure stay visible (the code performs no
rollback).  Numbers (similarity scores, timestamps in milliseconds) are
modelled as rationals.
-/

/-- Character-list prefix test, the building block of the substring test. -/
def isPrefixL : List Char → List Char → Bool
  | [], _ => true
  | _ :: _, [] => false
  | a :: as, b :: bs => a == b && isPrefixL as bs

/-- Character-list substring test. -/
def containsL (needle : List Char) : List Char → Bool
  | [] => needle.isEmpty
  | c :: cs => isPrefixL needle (c :: cs) || containsL needle cs

/-- JavaScript `haystack.includes(needle)`. -/
def jsIncludes (haystack needle : String) : Bool :=
  containsL needle.toList haystack.toList

/-- JavaScript truthiness of a possibly-absent string: `undefined` and the
empty string are falsy. -/
def jsTruthy : Option String → Bool
  | some s => s ≠ ""
  | none => false

/-- JavaScript `o || d` for a possibly-absent string with a string default. -/
def jsOrStr (o : Option String) (d : String) : String :=
  match o with
  | some s => if s = "" then d else s
  | none => d

/-- JavaScript `o || null` for a possibly-absent string: the empty string
collapses to null. -/
def jsOrNullStr (o : Option String) : Option String :=
  match o with
  | some s => if s = "" then none else some s
  | none => none

/-- JavaScript `o || d` for a possibly-absent number: `0` is falsy. -/
def jsOrRat (o : Option ℚ) (d : ℚ) : ℚ :=
  match o with
  | some r => if r = 0 then d else r
  | none => d

/-- Vehicle attributes as the code reads them off `analysis.vehicleInfo`. -/
structure VehicleInfo where
  model : String
  color : String
  year : String
deriving Repr, DecidableEq

/-- Location attributes as the code reads them off `analysis.locationInfo`;
an absent field is `none`. -/
structure LocationInfo where
  city : Option String
  state : Option String
  country : Option String
deriving Repr, DecidableEq

/-- One entry of `analysis.mediaUrls`. -/
structure MediaItem where
  url : String
  mtype : String
  width : Option Nat
  height : Option Nat
  duration : Option Nat
deriving Repr, DecidableEq

/-- The analysis object `createCaseFromSocialMedia` receives: exactly the
fields the code reads (`summary`, `locationInfo`, `vehicleInfo`, `mediaUrls`,
`relevanceScore`, `text`, `platform`); each is possibly absent. -/
structure Analysis where
  summary : Option String
  locationInfo : Option LocationInfo
  vehicleInfo : Option VehicleInfo
  mediaUrls : List MediaItem
  relevanceScore : Option ℚ
  text : Option String
  platform : Option String
deriving Repr, DecidableEq

/-- An incoming social-media post (the `SocialMediaSource` argument).  `id`
is only present on rows read back from the store; an incoming post carries
none.  The free-form `metadata` JSON blob is not modelled (no claim reads
it). -/
structure SocialMediaSource where
  id : Option Nat
  platform : String
  platform_id : String
  url : String
  author_username : String
  author_display_name : Option String
  author_avatar_url : Option String
  content : String
  posted_at : String
  is_reply : Option Bool
  reply_to_id : Option String
deriving Repr, DecidableEq

/-- The `target_details` object: one record covering the three shapes built
by `createTargetDetails` (vehicle, building, property); fields the given
shape does not set are `none`. -/
structure TargetDetails where
  dtype : String
  make : Option String
  model : Option String
  color : Option String
  year : Option String
  building_type : Option String
  property_type : Option String
deriving Repr, DecidableEq

/-- A row of the `cases` table.  `created_at` is the insertion timestamp in
milliseconds, set by the store. -/
structure CaseRow where
  id : Nat
  headline : String
  summary : String
  target_type : String
  target_details : TargetDetails
  location_city : Option String
  location_state : Option String
  location_country : Option String
  status : String
  damage_type : List String
  ai_confidence : ℚ
  is_verified : Bool
  created_at : ℚ
deriving Repr, DecidableEq

/-- A row of the `social_media_sources` table. -/
structure SourceRow where
  id : Nat
  platform : String
  platform_id : String
  url : String
  author_username : String
  author_display_name : String
  author_avatar_url : String
  content : String
  posted_at : String
  is_reply : Bool
  reply_to_id : Option String
deriving Repr, DecidableEq

/-- A row of the `case_updates` table (the fields this pipeline writes). -/
structure CaseUpdateRow where
  case_id : Nat
  source_id : Option Nat
  update_type : String
  title : String
  description : String
  is_public : Bool
  importance : Nat
deriving Repr, DecidableEq

/-- A row of the `case_media` table.  The external `analyzeMediaContent`
result stored in `ai_analysis` is outside the embedded pipeline and is not
modelled. -/
structure CaseMediaRow where
  case_id : Nat
  source_id : Option Nat
  media_type : String
  url : String
  thumbnail_url : String
  width : Nat
  height : Nat
  duration : Nat
  is_primary : Bool
deriving Repr, DecidableEq

/-- A row of the `related_cases` table. -/
structure RelatedCaseRow where
  case_id : Nat
  related_case_id : Nat
  relationship_type : String
  relationship_strength : ℚ
  is_ai_generated : Bool
deriving Repr, DecidableEq

/-- The persistent store: the five tables this pipeline touches plus a
fresh-id counter standing for the id generation the store performs. -/
structure DB where
  cases : List CaseRow
  sources : List SourceRow
  case_updates : List CaseUpdateRow
  case_media : List CaseMediaRow
  related_cases : List RelatedCaseRow
  nextId : Nat
deriving Repr, DecidableEq

/-- Which repository calls fail in a given run.  A flag set to `true` makes
every call of that kind error at the store, modelling an unreachable or
erroring backend.  Whether that store error surfaces follows the source:
the cases, sources and case_updates inserts check the returned error and
throw, while the case_media and related_cases inserts discard it. -/
structure Env where
  casesQueryFails : Bool
  caseInsertFails : Bool
  sourceInsertFails : Bool
  updateInsertFails : Bool
  mediaInsertFails : Bool
  relatedInsertFails : Bool
deriving Repr, DecidableEq

/-- The run in which every repository call succeeds. -/
def Env.ok : Env := ⟨false, false, false, false, false, false⟩

/-- A candidate case paired with its similarity score, as built inside
`findPotentialDuplicates`. -/
structure ScoredCase where
  case_ : CaseRow
  similarityScore : ℚ
deriving Repr, DecidableEq

/-- The value `createCaseFromSocialMedia` resolves with. -/
structure CreateCaseResult where
  caseId : Nat
  isNewCase : Bool
  isDuplicate : Bool
deriving Repr, DecidableEq


/-- `analysis.vehicleInfo?.model || ""` (and likewise for color and year). -/
def vModel (a : Analysis) : String := (a.vehicleInfo.map VehicleInfo.model).getD ""

def vColor (a : Analysis) : String := (a.vehicleInfo.map VehicleInfo.color).getD ""

def vYear (a : Analysis) : String := (a.vehicleInfo.map VehicleInfo.year).getD ""

/-- `analysis.locationInfo?.city` (undefined when `locationInfo` is absent). -/
def liCity (a : Analysis) : Option String := a.locationInfo.bind LocationInfo.city

def liState (a : Analysis) : Option String := a.locationInfo.bind LocationInfo.state

/-- JavaScript `s.toLowerCase()`, character by character (the contents this
pipeline matches on are ASCII). -/
def strToLower (s : String) : String :=
  String.mk (s.toList.map Char.toLower)

/-- `determineTargetType` (caseManagement): keyword checks on the lowered
post content; building keywords first, then property keywords, else vehicle.
The `analysis` argument is taken but unused, as in the source. -/
def determineTargetType (content : String) (_analysis : Analysis) : String :=
  let textLower := strToLower content
  if jsIncludes textLower "building" || jsIncludes textLower "store" ||
     jsIncludes textLower "dealership" || jsIncludes textLower "showroom" ||
     jsIncludes textLower "supercharger" then "building"
  else if jsIncludes textLower "property" || jsIncludes textLower "sign" ||
          jsIncludes textLower "billboard" then "property"
  else "vehicle"

/-- `determineBuildingType` (caseManagement). -/
def determineBuildingType (text : String) : String :=
  let textLower := strToLower text
  if jsIncludes textLower "dealership" || jsIncludes textLower "showroom" then "dealership"
  else if jsIncludes textLower "supercharger" || jsIncludes textLower "charging" then "supercharger"
  else if jsIncludes textLower "store" then "store"
  else if jsIncludes textLower "factory" || jsIncludes textLower "gigafactory" then "factory"
  else "other"

/-- `determinePropertyType` (caseManagement). -/
def determinePropertyType (text : String) : String :=
  let textLower := strToLower text
  if jsIncludes textLower "sign" || jsIncludes textLower "billboard" then "sign"
  else if jsIncludes textLower "equipment" then "equipment"
  else "other"

/-- `determineDamageType` (caseManagement): six independent keyword checks
in push order, falling back to `other_damage` when none fired. -/
def determineDamageType (content : String) (_analysis : Analysis) : List String :=
  let textLower := strToLower content
  let damageTypes :=
    (if jsIncludes textLower "key" || jsIncludes textLower "scratch" then ["keying"] else []) ++
    (if jsIncludes textLower "window" &&
        (jsIncludes textLower "break" || jsIncludes textLower "broke" ||
         jsIncludes textLower "broken" || jsIncludes textLower "smash")
     then ["broken_windows"] else []) ++
    (if jsIncludes textLower "graffiti" || jsIncludes textLower "spray" ||
        jsIncludes textLower "paint" then ["graffiti"] else []) ++
    (if jsIncludes textLower "tire" || jsIncludes textLower "tyre" ||
        jsIncludes textLower "slash" then ["tire_slashing"] else []) ++
    (if jsIncludes textLower "fire" || jsIncludes textLower "burn" ||
        jsIncludes textLower "arson" then ["arson"] else []) ++
    (if jsIncludes textLower "dent" || jsIncludes textLower "hit" ||
        jsIncludes textLower "smash" then ["denting"] else [])
  if damageTypes.isEmpty then ["other_damage"] else damageTypes

/-- `createTargetDetails` (caseManagement).  Note: for buildings and
properties the subtype is derived from `analysis.text || ""`, not from the
post content. -/
def createTargetDetails (targetType : String) (analysis : Analysis) : TargetDetails :=
  if targetType = "vehicle" then
    { dtype := "vehicle", make := some "Tesla", model := some (vModel analysis),
      color := some (vColor analysis), year := some (vYear analysis),
      building_type := none, property_type := none }
  else if targetType = "building" then
    { dtype := "building", make := none, model := none, color := none, year := none,
      building_type := some (determineBuildingType (analysis.text.getD "")),
      property_type := none }
  else
    { dtype := "property", make := none, model := none, color := none, year := none,
      building_type := none,
      property_type := some (determinePropertyType (analysis.text.getD "")) }

/-- `generateHeadline` (caseManagement): templated headline construction. -/
def generateHeadline (content : String) (analysis : Analysis) (targetType : String) : String :=
  let headline :=
    if targetType = "vehicle" then
      let h := "Tesla"
      let h := if vModel analysis ≠ "" then h ++ " " ++ vModel analysis else h
      h ++ " vandalized"
    else if targetType = "building" then
      "Tesla " ++ determineBuildingType content ++ " vandalized"
    else
      "Tesla " ++ determinePropertyType content ++ " vandalized"
  let headline :=
    if jsTruthy (liCity analysis) && jsTruthy (liState analysis) then
      headline ++ " in " ++ (liCity analysis).getD "" ++ ", " ++ (liState analysis).getD ""
    else headline
  let damageType := determineDamageType content analysis
  if damageType.contains "keying" then headline ++ ": Keyed by vandal"
  else if damageType.contains "broken_windows" then headline ++ ": Windows smashed"
  else if damageType.contains "graffiti" then headline ++ ": Tagged with graffiti"
  else if damageType.contains "tire_slashing" then headline ++ ": Tires slashed"
  else if damageType.contains "arson" then headline ++ ": Set on fire"
  else if damageType.contains "denting" then headline ++ ": Body damaged"
  else headline

/-- `generateSummary` (caseManagement): templated summary construction,
ending with the reporting platform (`analysis.platform || "social media"`). -/
def generateSummary (content : String) (analysis : Analysis) (targetType : String) : String :=
  let summary :=
    if targetType = "vehicle" then
      let s := "A Tesla"
      let s := if vModel analysis ≠ "" then s ++ " " ++ vModel analysis else s
      let s := if vColor analysis ≠ "" then "A " ++ vColor analysis ++ " " ++ s.drop 2 else s
      s ++ " was vandalized"
    else if targetType = "building" then
      "A Tesla " ++ determineBuildingType content ++ " was vandalized"
    else
      "Tesla " ++ determinePropertyType content ++ " was vandalized"
  let summary :=
    if jsTruthy (liCity analysis) && jsTruthy (liState analysis) then
      summary ++ " in " ++ (liCity analysis).getD "" ++ ", " ++ (liState analysis).getD ""
    else summary
  let damageType := determineDamageType content analysis
  let summary :=
    if damageType.contains "keying" then
      summary ++ ". The vehicle was keyed, causing damage to the paint."
    else if damageType.contains "broken_windows" then
      summary ++ ". One or more windows were broken or smashed."
    else if damageType.contains "graffiti" then
      summary ++ ". The target was tagged with graffiti."
    else if damageType.contains "tire_slashing" then
      summary ++ ". The tires were slashed or otherwise damaged."
    else if damageType.contains "arson" then
      summary ++ ". The target was set on fire or damaged by arson."
    else if damageType.contains "denting" then
      summary ++ ". The body was dented or physically damaged."
    else
      summary ++ ". The target sustained damage from vandalism."
  summary ++ " This incident was reported on " ++ jsOrStr analysis.platform "social media" ++ "."

/-- Descending sort by a rational key, modelling the JavaScript
`sort((a, b) => key(b) - key(a))` calls (candidate recency and score order). -/
def sortDescBy {α : Type} (key : α → ℚ) (l : List α) : List α :=
  List.insertionSort (fun a b => key b ≤ key a) l

/-- The candidate age in hours: `(now - created_at) / (1000 * 60 * 60)`. -/
def ageHours (nowMs : ℚ) (case_ : CaseRow) : ℚ :=
  (nowMs - case_.created_at) / (1000 * 60 * 60)

/-- The time-proximity term of the similarity score: cases within the last
48 hours decay linearly from 0.2 to 0; nothing beyond. -/
def timeProximityScore (nowMs : ℚ) (case_ : CaseRow) : ℚ :=
  let hoursDiff := ageHours nowMs case_
  if hoursDiff < 48 then 0.2 * (1 - hoursDiff / 48) else 0

/-- The similarity score one candidate receives inside
`findPotentialDuplicates`: location + target + damage + time terms, summed
exactly as the sequential `similarityScore +=` statements do. -/
def similarityScore (nowMs : ℚ) (locationInfo : LocationInfo)
    (targetDetails : TargetDetails) (damageType : List String) (case_ : CaseRow) : ℚ :=
  let locScore : ℚ :=
    if case_.location_city = locationInfo.city then
      0.3 + (if case_.location_state = locationInfo.state then 0.1 else 0)
    else 0
  let targetScore : ℚ :=
    if case_.target_type = targetDetails.dtype then
      0.2 + (if case_.target_type = "vehicle" ∧
                case_.target_details.make = targetDetails.make ∧
                case_.target_details.model = targetDetails.model then 0.2 else 0)
    else 0
  let matchingDamageTypes := damageType.filter (fun t => case_.damage_type.contains t)
  let damageScore : ℚ :=
    if 0 < matchingDamageTypes.length then
      0.2 * ((matchingDamageTypes.length : ℚ) / (damageType.length : ℚ))
    else 0
  locScore + targetScore + damageScore + timeProximityScore nowMs case_

/-- `findPotentialDuplicates` (caseManagement): select candidates matching
the post city and target type, newest first, capped at 10; score each; sort
by score descending.  A failing candidate query is caught inside the
function, which then returns the empty list. -/
def findPotentialDuplicates (env : Env) (nowMs : ℚ) (locationInfo : LocationInfo)
    (targetDetails : TargetDetails) (damageType : List String) (db : DB) : List ScoredCase :=
  if env.casesQueryFails then []
  else
    let cases :=
      (sortDescBy CaseRow.created_at
        (db.cases.filter (fun c =>
          c.location_city == locationInfo.city && c.target_type == targetDetails.dtype))).take 10
    if cases.isEmpty then []
    else
      sortDescBy ScoredCase.similarityScore
        (cases.map (fun case_ =>
          ⟨case_, similarityScore nowMs locationInfo targetDetails damageType case_⟩))

/-- The stored row built from an incoming source (both `storeSocialMediaSource`
and the insert inside `linkSourceToCase` build it this way). -/
def mkSourceRow (newId : Nat) (source : SocialMediaSource) : SourceRow :=
  { id := newId, platform := source.platform, platform_id := source.platform_id,
    url := source.url, author_username := source.author_username,
    author_display_name := source.author_display_name.getD "",
    author_avatar_url := source.author_avatar_url.getD "",
    content := source.content, posted_at := source.posted_at,
    is_reply := source.is_reply.getD false,
    reply_to_id := source.reply_to_id }

/-- `createCaseUpdate` (caseManagement): append one row to `case_updates`. -/
def createCaseUpdate (env : Env) (update : CaseUpdateRow) (db : DB) :
    Except String Unit × DB :=
  if env.updateInsertFails then (.error "case_updates insert failed", db)
  else (.ok (), { db with case_updates := db.case_updates ++ [update] })

/-- The lookup of a stored source by `(platform, platform_id)`. -/
def findSource (db : DB) (source : SocialMediaSource) : Option SourceRow :=
  db.sources.find? (fun r =>
    r.platform == source.platform && r.platform_id == source.platform_id)

/-- The case update `linkSourceToCase` appends. -/
def linkUpdateRow (source : SocialMediaSource) (caseId sourceId : Nat) : CaseUpdateRow :=
  { case_id := caseId, source_id := some sourceId, update_type := "new_information",
    title := "New information from " ++ source.platform,
    description := "A post on " ++ source.platform ++ " by @" ++ source.author_username ++
      " has been linked to this case.",
    is_public := true, importance := 3 }

/-- `linkSourceToCase` (caseManagement): insert the source if absent (keyed
by platform and platform id), then append a case update linking it. -/
def linkSourceToCase (env : Env) (source : SocialMediaSource) (caseId : Nat) (db : DB) :
    Except String Nat × DB :=
  match findSource db source with
  | some row =>
    match createCaseUpdate env (linkUpdateRow source caseId row.id) db with
    | (.error e, db1) => (.error e, db1)
    | (.ok _, db1) => (.ok row.id, db1)
  | none =>
    if env.sourceInsertFails then (.error "social_media_sources insert failed", db)
    else
      let row := mkSourceRow db.nextId source
      let db1 := { db with sources := db.sources ++ [row], nextId := db.nextId + 1 }
      match createCaseUpdate env (linkUpdateRow source caseId row.id) db1 with
      | (.error e, db2) => (.error e, db2)
      | (.ok _, db2) => (.ok row.id, db2)

/-- JavaScript `url.replace(/\.mp4$/, ".jpg")`. -/
def replaceMp4Jpg (url : String) : String :=
  if url.endsWith ".mp4" then url.dropRight 4 ++ ".jpg" else url

/-- One `case_media` row as `addMediaToCase` inserts it; the first media
item (index 0) is primary. -/
def mkCaseMediaRow (caseId : Nat) (sourceId : Option Nat) (index : Nat)
    (media : MediaItem) : CaseMediaRow :=
  { case_id := caseId, source_id := sourceId,
    media_type := if media.mtype = "video" then "video" else "image",
    url := media.url,
    thumbnail_url := if media.mtype = "video" then replaceMp4Jpg media.url else media.url,
    width := media.width.getD 0, height := media.height.getD 0,
    duration := media.duration.getD 0,
    is_primary := index == 0 }

/-- `addMediaToCase` (caseManagement), as a recursion over the media list
carrying the entry index (the caller starts it at 0).  The source never
checks the result of the `case_media` insert (no `if (error) throw`), so a
store error there only means the row is not written: the loop continues and
the call never fails. -/
def addMediaToCase (env : Env) (caseId : Nat) (sourceId : Option Nat) :
    Nat → List MediaItem → DB → Except String Unit × DB
  | _, [], db => (.ok (), db)
  | index, media :: rest, db =>
    addMediaToCase env caseId sourceId (index + 1) rest
      (if env.mediaInsertFails then db
       else { db with
         case_media := db.case_media ++ [mkCaseMediaRow caseId sourceId index media] })

/-- `linkRelatedCases` (caseManagement): one insert carrying the
relationship in both directions.  The source never checks the result of the
`related_cases` insert (no error check), so a store error there only means
the two rows are not written: the call never fails, and either both rows or
neither row is inserted. -/
def linkRelatedCases (env : Env) (caseId relatedCaseId : Nat) (relationshipType : String)
    (relationshipStrength : ℚ) (db : DB) : Except String Unit × DB :=
  (.ok (), { db with related_cases := db.related_cases ++
    (if env.relatedInsertFails then []
     else
      [{ case_id := caseId, related_case_id := relatedCaseId,
         relationship_type := relationshipType,
         relationship_strength := relationshipStrength, is_ai_generated := true },
       { case_id := relatedCaseId, related_case_id := caseId,
         relationship_type := relationshipType,
         relationship_strength := relationshipStrength, is_ai_generated := true }]) })

/-- The loop over `potentialDuplicates` in the new-case branch of
`createCaseFromSocialMedia`: link every candidate scoring above 0.6. -/
def linkDuplicates (env : Env) (newCaseId : Nat) :
    List ScoredCase → DB → Except String Unit × DB
  | [], db => (.ok (), db)
  | d :: ds, db =>
    if d.similarityScore > 0.6 then
      match linkRelatedCases env newCaseId d.case_.id "possible_duplicate"
          d.similarityScore db with
      | (.error e, db1) => (.error e, db1)
      | (.ok _, db1) => linkDuplicates env newCaseId ds db1
    else linkDuplicates env newCaseId ds db

/-- The duplicate branch of `createCaseFromSocialMedia` (top candidate above
0.85): link the source to the matched case, add any media, append the
additional-report case update; no case row is written. -/
def duplicatePath (env : Env) (source : SocialMediaSource) (analysis : Analysis)
    (top : ScoredCase) (db : DB) : Except String CreateCaseResult × DB :=
  match linkSourceToCase env source top.case_.id db with
  | (.error e, db1) => (.error e, db1)
  | (.ok _, db1) =>
    let step2 :=
      if 0 < analysis.mediaUrls.length then
        addMediaToCase env top.case_.id source.id 0 analysis.mediaUrls db1
      else (.ok (), db1)
    match step2 with
    | (.error e, db2) => (.error e, db2)
    | (.ok _, db2) =>
      match createCaseUpdate env
          { case_id := top.case_.id, source_id := source.id,
            update_type := "new_information",
            title := "Additional report of the same incident",
            description := "A new social media post about this incident was found on " ++
              source.platform ++ ".",
            is_public := true, importance := 2 } db2 with
      | (.error e, db3) => (.error e, db3)
      | (.ok _, db3) => (.ok { caseId := top.case_.id, isNewCase := false, isDuplicate := true }, db3)

/-- The case row the new-case branch inserts (`created_at` is the store
insertion time). -/
def newCaseRow (nowMs : ℚ) (newId : Nat) (headline summary targetType : String)
    (targetDetails : TargetDetails) (locationInfo : LocationInfo)
    (damageType : List String) (analysis : Analysis) : CaseRow :=
  { id := newId, headline := headline, summary := summary, target_type := targetType,
    target_details := targetDetails,
    location_city := jsOrNullStr locationInfo.city,
    location_state := jsOrNullStr locationInfo.state,
    location_country := some (jsOrStr locationInfo.country "US"),
    status := "reported", damage_type := damageType,
    ai_confidence := jsOrRat analysis.relevanceScore 0.7,
    is_verified := false, created_at := nowMs }

/-- The new-case branch of `createCaseFromSocialMedia`: insert one case,
link the source, add any media, then link every candidate scoring above 0.6
as a possible duplicate. -/
def newCasePath (env : Env) (nowMs : ℚ) (source : SocialMediaSource) (analysis : Analysis)
    (headline summary targetType : String) (targetDetails : TargetDetails)
    (locationInfo : LocationInfo) (damageType : List String)
    (potentialDuplicates : List ScoredCase) (db : DB) : Except String CreateCaseResult × DB :=
  if env.caseInsertFails then (.error "cases insert failed", db)
  else
    let newCase := newCaseRow nowMs db.nextId headline summary targetType targetDetails
      locationInfo damageType analysis
    let db1 := { db with cases := db.cases ++ [newCase], nextId := db.nextId + 1 }
    match linkSourceToCase env source newCase.id db1 with
    | (.error e, db2) => (.error e, db2)
    | (.ok _, db2) =>
      let step3 :=
        if 0 < analysis.mediaUrls.length then
          addMediaToCase env newCase.id source.id 0 analysis.mediaUrls db2
        else (.ok (), db2)
      match step3 with
      | (.error e, db3) => (.error e, db3)
      | (.ok _, db3) =>
        match linkDuplicates env newCase.id potentialDuplicates db3 with
        | (.error e, db4) => (.error e, db4)
        | (.ok _, db4) => (.ok { caseId := newCase.id, isNewCase := true, isDuplicate := false }, db4)

/-- `const targetType = determineTargetType(source.content, analysis)`. -/
def pipelineTargetType (source : SocialMediaSource) (analysis : Analysis) : String :=
  determineTargetType source.content analysis

/-- `const targetDetails = createTargetDetails(targetType, analysis)`. -/
def pipelineTargetDetails (source : SocialMediaSource) (analysis : Analysis) : TargetDetails :=
  createTargetDetails (pipelineTargetType source analysis) analysis

/-- `const headline = generateHeadline(source.content, analysis, targetType)`. -/
def pipelineHeadline (source : SocialMediaSource) (analysis : Analysis) : String :=
  generateHeadline source.content analysis (pipelineTargetType source analysis)

/-- `const summary = analysis.summary || generateSummary(...)`. -/
def pipelineSummary (source : SocialMediaSource) (analysis : Analysis) : String :=
  jsOrStr analysis.summary
    (generateSummary source.content analysis (pipelineTargetType source analysis))

/-- `const locationInfo = analysis.locationInfo || {}`. -/
def pipelineLocationInfo (analysis : Analysis) : LocationInfo :=
  analysis.locationInfo.getD { city := none, state := none, country := none }

/-- `const damageType = determineDamageType(source.content, analysis)`. -/
def pipelineDamageType (source : SocialMediaSource) (analysis : Analysis) : List String :=
  determineDamageType source.content analysis

/-- The duplicate search `createCaseFromSocialMedia` performs on its derived
fields. -/
def pipelineDuplicates (env : Env) (nowMs : ℚ) (source : SocialMediaSource)
    (analysis : Analysis) (db : DB) : List ScoredCase :=
  findPotentialDuplicates env nowMs (pipelineLocationInfo analysis)
    (pipelineTargetDetails source analysis) (pipelineDamageType source analysis) db

/-- `createCaseFromSocialMedia` (caseManagement): derive the classification
and synthesized fields, search for duplicates, then take the duplicate
branch when the top candidate scores above 0.85 and the new-case branch
otherwise. -/
def createCaseFromSocialMedia (env : Env) (nowMs : ℚ) (source : SocialMediaSource)
    (analysis : Analysis) (db : DB) : Except String CreateCaseResult × DB :=
  match (pipelineDuplicates env nowMs source analysis db).head? with
  | some top =>
    if top.similarityScore > 0.85 then duplicatePath env source analysis top db
    else
      newCasePath env nowMs source analysis (pipelineHeadline source analysis)
        (pipelineSummary source analysis) (pipelineTargetType source analysis)
        (pipelineTargetDetails source analysis) (pipelineLocationInfo analysis)
        (pipelineDamageType source analysis)
        (pipelineDuplicates env nowMs source analysis db) db
  | none =>
    newCasePath env nowMs source analysis (pipelineHeadline source analysis)
      (pipelineSummary source analysis) (pipelineTargetType source analysis)
      (pipelineTargetDetails source analysis) (pipelineLocationInfo analysis)
      (pipelineDamageType source analysis)
      (pipelineDuplicates env nowMs source analysis db) db

/-- The related-case rows the new-case branch inserts for a given candidate
list: a forward and a reverse row for every candidate scoring above 0.6. -/
def dupPairs (newCaseId : Nat) : List ScoredCase → List RelatedCaseRow
  | [] => []
  | d :: ds =>
    (if d.similarityScore > 0.6 then
      [{ case_id := newCaseId, related_case_id := d.case_.id,
         relationship_type := "possible_duplicate",
         relationship_strength := d.similarityScore, is_ai_generated := true },
       { case_id := d.case_.id, related_case_id := newCaseId,
         relationship_type := "possible_duplicate",
         relationship_strength := d.similarityScore, is_ai_generated := true }]
     else []) ++ dupPairs newCaseId ds

/-- The media rows `addMediaToCase` inserts starting at a given index. -/
def mkMediaRows (caseId : Nat) (sourceId : Option Nat) :
    Nat → List MediaItem → List CaseMediaRow
  | _, [] => []
  | index, media :: rest =>
    mkCaseMediaRow caseId sourceId index media :: mkMediaRows caseId sourceId (index + 1) rest

theorem sortDescBy_sorted {α : Type} (key : α → ℚ) (l : List α) :
    List.Sorted (fun a b => key b ≤ key a) (sortDescBy key l) := by
  haveI : IsTotal α (fun a b => key b ≤ key a) := ⟨fun a b => le_total (key b) (key a)⟩
  haveI : IsTrans α (fun a b => key b ≤ key a) := ⟨fun _ _ _ h1 h2 => le_trans h2 h1⟩
  exact List.sorted_insertionSort _ l

theorem sortDescBy_mem {α : Type} (key : α → ℚ) (l : List α) (x : α) :
    x ∈ sortDescBy key l ↔ x ∈ l :=
  (List.perm_insertionSort _ l).mem_iff

theorem sortDescBy_head_max {α : Type} (key : α → ℚ) (l : List α) (a : α) (t : List α)
    (h : sortDescBy key l = a :: t) : ∀ x ∈ l, key x ≤ key a := by
  intro x hx
  have hmem : x ∈ a :: t := h ▸ (sortDescBy_mem key l x).mpr hx
  rcases List.mem_cons.mp hmem with rfl | hxt
  · exact le_refl _
  · have hs := sortDescBy_sorted key l
    rw [h] at hs
    exact List.rel_of_sorted_cons hs x hxt

theorem mem_findPotentialDuplicates_score (env : Env) (nowMs : ℚ) (li : LocationInfo)
    (td : TargetDetails) (dt : List String) (db : DB) (d : ScoredCase)
    (hd : d ∈ findPotentialDuplicates env nowMs li td dt db) :
    d.similarityScore = similarityScore nowMs li td dt d.case_ := by
  unfold findPotentialDuplicates at hd
  by_cases hq : env.casesQueryFails
  · simp [hq] at hd
  · simp only [hq, if_false, Bool.false_eq_true] at hd
    by_cases he :
      ((sortDescBy CaseRow.created_at
        (db.cases.filter (fun c =>
          c.location_city == li.city && c.target_type == td.dtype))).take 10).isEmpty
    · simp [he] at hd
    · simp only [he, if_false, Bool.false_eq_true] at hd
      have := (sortDescBy_mem ScoredCase.similarityScore _ d).mp hd
      rcases List.mem_map.mp this with ⟨c, _, rfl⟩
      rfl

theorem findPotentialDuplicates_head_ge (env : Env) (nowMs : ℚ) (li : LocationInfo)
    (td : TargetDetails) (dt : List String) (db : DB) (top : ScoredCase)
    (h : (findPotentialDuplicates env nowMs li td dt db).head? = some top) :
    ∀ d ∈ findPotentialDuplicates env nowMs li td dt db,
      d.similarityScore ≤ top.similarityScore := by
  intro d hd
  unfold findPotentialDuplicates at h hd
  by_cases hq : env.casesQueryFails
  · simp [hq] at h
  · simp only [hq, if_false, Bool.false_eq_true] at h hd
    by_cases he :
      ((sortDescBy CaseRow.created_at
        (db.cases.filter (fun c =>
          c.location_city == li.city && c.target_type == td.dtype))).take 10).isEmpty
    · simp [he] at h
    · simp only [he, if_false, Bool.false_eq_true] at h hd
      rcases hs : sortDescBy ScoredCase.similarityScore
        (((sortDescBy CaseRow.created_at
          (db.cases.filter (fun c =>
            c.location_city == li.city && c.target_type == td.dtype))).take 10).map
          (fun case_ => ⟨case_, similarityScore nowMs li td dt case_⟩)) with _ | ⟨b, t⟩
      · rw [hs] at h; simp at h
      · rw [hs] at h hd
        simp only [List.head?_cons, Option.some.injEq] at h
        subst h
        exact sortDescBy_head_max ScoredCase.similarityScore _ _ _ hs d
          ((sortDescBy_mem _ _ d).mp (hs ▸ hd))

theorem createCaseUpdate_noFail (env : Env) (hu : env.updateInsertFails = false)
    (u : CaseUpdateRow) (db : DB) :
    createCaseUpdate env u db = (.ok (), { db with case_updates := db.case_updates ++ [u] }) := by
  simp [createCaseUpdate, hu]

theorem linkSourceToCase_found (env : Env) (hu : env.updateInsertFails = false)
    (s : SocialMediaSource) (caseId : Nat) (db : DB) (row : SourceRow)
    (hf : findSource db s = some row) :
    linkSourceToCase env s caseId db =
      (.ok row.id, { db with case_updates := db.case_updates ++ [linkUpdateRow s caseId row.id] }) := by
  simp [linkSourceToCase, hf, createCaseUpdate_noFail env hu]

theorem linkSourceToCase_absent (env : Env) (hu : env.updateInsertFails = false)
    (hs : env.sourceInsertFails = false)
    (s : SocialMediaSource) (caseId : Nat) (db : DB)
    (hf : findSource db s = none) :
    linkSourceToCase env s caseId db =
      (.ok db.nextId,
        { db with sources := db.sources ++ [mkSourceRow db.nextId s],
                  case_updates := db.case_updates ++ [linkUpdateRow s caseId db.nextId],
                  nextId := db.nextId + 1 }) := by
  simp [linkSourceToCase, hf, hs, createCaseUpdate_noFail env hu, mkSourceRow]

theorem linkSourceToCase_updateFail_found (env : Env) (hu : env.updateInsertFails = true)
    (s : SocialMediaSource) (caseId : Nat) (db : DB) (row : SourceRow)
    (hf : findSource db s = some row) :
    linkSourceToCase env s caseId db = (.error "case_updates insert failed", db) := by
  simp [linkSourceToCase, hf, createCaseUpdate, hu]

theorem linkSourceToCase_updateFail_absent (env : Env) (hu : env.updateInsertFails = true)
    (hs : env.sourceInsertFails = false)
    (s : SocialMediaSource) (caseId : Nat) (db : DB)
    (hf : findSource db s = none) :
    linkSourceToCase env s caseId db =
      (.error "case_updates insert failed",
        { db with sources := db.sources ++ [mkSourceRow db.nextId s],
                  nextId := db.nextId + 1 }) := by
  simp [linkSourceToCase, hf, hs, createCaseUpdate, hu]

theorem linkSourceToCase_sourceFail (env : Env) (hs : env.sourceInsertFails = true)
    (s : SocialMediaSource) (caseId : Nat) (db : DB)
    (hf : findSource db s = none) :
    linkSourceToCase env s caseId db = (.error "social_media_sources insert failed", db) := by
  simp [linkSourceToCase, hf, hs]

theorem addMediaToCase_eq (env : Env) (caseId : Nat) (sourceId : Option Nat) :
    ∀ (index : Nat) (ms : List MediaItem) (db : DB),
      addMediaToCase env caseId sourceId index ms db =
        (.ok (), { db with case_media := db.case_media ++
          (if env.mediaInsertFails then [] else mkMediaRows caseId sourceId index ms) })
  | _, [], db => by simp [addMediaToCase, mkMediaRows]
  | index, media :: rest, db => by
    by_cases hm : env.mediaInsertFails
    · simp only [addMediaToCase, hm, if_true]
      rw [addMediaToCase_eq env caseId sourceId (index + 1) rest]
      simp [hm]
    · simp only [addMediaToCase, hm, Bool.false_eq_true, if_false]
      rw [addMediaToCase_eq env caseId sourceId (index + 1) rest]
      simp [hm, mkMediaRows]

theorem linkRelatedCases_noFail (env : Env) (hr : env.relatedInsertFails = false)
    (a b : Nat) (t : String) (strength : ℚ) (db : DB) :
    linkRelatedCases env a b t strength db =
      (.ok (), { db with related_cases := db.related_cases ++
        [{ case_id := a, related_case_id := b, relationship_type := t,
           relationship_strength := strength, is_ai_generated := true },
         { case_id := b, related_case_id := a, relationship_type := t,
           relationship_strength := strength, is_ai_generated := true }] }) := by
  simp [linkRelatedCases, hr]

theorem linkDuplicates_eq (env : Env) (newCaseId : Nat) :
    ∀ (ds : List ScoredCase) (db : DB),
      linkDuplicates env newCaseId ds db =
        (.ok (), { db with related_cases := db.related_cases ++
          (if env.relatedInsertFails then [] else dupPairs newCaseId ds) })
  | [], db => by simp [linkDuplicates, dupPairs]
  | d :: ds, db => by
    by_cases hgt : d.similarityScore > 0.6
    · simp only [linkDuplicates, hgt, if_true, linkRelatedCases]
      rw [linkDuplicates_eq env newCaseId ds]
      by_cases hr : env.relatedInsertFails
      · simp [hr, dupPairs, hgt]
      · simp [hr, dupPairs, hgt]
    · simp only [linkDuplicates, hgt, if_false]
      rw [linkDuplicates_eq env newCaseId ds]
      by_cases hr : env.relatedInsertFails
      · simp [hr, dupPairs, hgt]
      · simp [hr, dupPairs, hgt]

theorem createCase_eq_duplicatePath (env : Env) (nowMs : ℚ) (source : SocialMediaSource)
    (analysis : Analysis) (db : DB) (top : ScoredCase)
    (hh : (pipelineDuplicates env nowMs source analysis db).head? = some top)
    (hgt : top.similarityScore > 0.85) :
    createCaseFromSocialMedia env nowMs source analysis db =
      duplicatePath env source analysis top db := by
  unfold createCaseFromSocialMedia
  rw [hh]
  simp [hgt]

theorem createCase_eq_newCasePath (env : Env) (nowMs : ℚ) (source : SocialMediaSource)
    (analysis : Analysis) (db : DB)
    (hle : ∀ top, (pipelineDuplicates env nowMs source analysis db).head? = some top →
      top.similarityScore ≤ 0.85) :
    createCaseFromSocialMedia env nowMs source analysis db =
      newCasePath env nowMs source analysis (pipelineHeadline source analysis)
        (pipelineSummary source analysis) (pipelineTargetType source analysis)
        (pipelineTargetDetails source analysis) (pipelineLocationInfo analysis)
        (pipelineDamageType source analysis)
        (pipelineDuplicates env nowMs source analysis db) db := by
  unfold createCaseFromSocialMedia
  cases hh : (pipelineDuplicates env nowMs source analysis db).head? with
  | none => rfl
  | some top =>
    have := hle top hh
    have hnot : ¬ top.similarityScore > 0.85 := not_lt.mpr this
    simp [hnot]

theorem mem_mkMediaRows_case_id (caseId : Nat) (sourceId : Option Nat) :
    ∀ (index : Nat) (ms : List MediaItem) (r : CaseMediaRow),
      r ∈ mkMediaRows caseId sourceId index ms → r.case_id = caseId
  | _, [], r, hr => by simp [mkMediaRows] at hr
  | index, m :: rest, r, hr => by
    rcases List.mem_cons.mp hr with rfl | hr2
    · rfl
    · exact mem_mkMediaRows_case_id caseId sourceId (index + 1) rest r hr2

theorem dupPairs_mem_of (newCaseId : Nat) :
    ∀ (ds : List ScoredCase) (d : ScoredCase), d ∈ ds → 0.6 < d.similarityScore →
      ({ case_id := newCaseId, related_case_id := d.case_.id,
         relationship_type := "possible_duplicate",
         relationship_strength := d.similarityScore,
         is_ai_generated := true } : RelatedCaseRow) ∈ dupPairs newCaseId ds ∧
      ({ case_id := d.case_.id, related_case_id := newCaseId,
         relationship_type := "possible_duplicate",
         relationship_strength := d.similarityScore,
         is_ai_generated := true } : RelatedCaseRow) ∈ dupPairs newCaseId ds
  | [], d, hd, _ => by simp at hd
  | e :: ds, d, hd, hgt => by
    rcases List.mem_cons.mp hd with rfl | hd2
    · have h6 : d.similarityScore > 0.6 := hgt
      simp only [dupPairs, h6, if_true]
      constructor <;> simp
    · have ih := dupPairs_mem_of newCaseId ds d hd2 hgt
      simp only [dupPairs]
      exact ⟨List.mem_append_right _ ih.1, List.mem_append_right _ ih.2⟩

theorem mem_dupPairs (newCaseId : Nat) :
    ∀ (ds : List ScoredCase) (r : RelatedCaseRow), r ∈ dupPairs newCaseId ds →
      ∃ d ∈ ds, 0.6 < d.similarityScore ∧
        (r = { case_id := newCaseId, related_case_id := d.case_.id,
               relationship_type := "possible_duplicate",
               relationship_strength := d.similarityScore, is_ai_generated := true } ∨
         r = { case_id := d.case_.id, related_case_id := newCaseId,
               relationship_type := "possible_duplicate",
               relationship_strength := d.similarityScore, is_ai_generated := true })
  | [], r, hr => by simp [dupPairs] at hr
  | e :: ds, r, hr => by
    simp only [dupPairs] at hr
    rcases List.mem_append.mp hr with h1 | h2
    · by_cases h6 : e.similarityScore > 0.6
      · simp only [h6, if_true] at h1
        rcases List.mem_cons.mp h1 with rfl | h1b
        · exact ⟨e, List.mem_cons_self e ds, h6, Or.inl rfl⟩
        · rcases List.mem_cons.mp h1b with rfl | h1c
          · exact ⟨e, List.mem_cons_self e ds, h6, Or.inr rfl⟩
          · simp at h1c
      · simp [h6] at h1
    · rcases mem_dupPairs newCaseId ds r h2 with ⟨d, hd, hgt, hor⟩
      exact ⟨d, List.mem_cons_of_mem e hd, hgt, hor⟩

theorem mem_mediaRowsIf (env : Env) (caseId : Nat) (sourceId : Option Nat) (index : Nat)
    (ms : List MediaItem) (r : CaseMediaRow)
    (hr : r ∈ (if env.mediaInsertFails then [] else mkMediaRows caseId sourceId index ms)) :
    r.case_id = caseId := by
  by_cases hm : env.mediaInsertFails
  · simp [hm] at hr
  · simp only [hm, Bool.false_eq_true, if_false] at hr
    exact mem_mkMediaRows_case_id caseId sourceId index ms r hr

theorem duplicatePath_noFail (env : Env) (hu : env.updateInsertFails = false)
    (hs : env.sourceInsertFails = false)
    (s : SocialMediaSource) (a : Analysis) (top : ScoredCase) (db : DB) :
    ∃ db2, duplicatePath env s a top db =
        (.ok { caseId := top.case_.id, isNewCase := false, isDuplicate := true }, db2) ∧
      db2.cases = db.cases ∧
      db2.related_cases = db.related_cases ∧
      db2.sources = (match findSource db s with
        | some _ => db.sources
        | none => db.sources ++ [mkSourceRow db.nextId s]) ∧
      (∃ l, db2.case_updates = db.case_updates ++ l ∧ l ≠ [] ∧
        ∀ u ∈ l, u.case_id = top.case_.id) ∧
      (∃ lm, db2.case_media = db.case_media ++ lm ∧ ∀ m ∈ lm, m.case_id = top.case_.id) ∧
      (env.mediaInsertFails = true → db2.case_media = db.case_media) := by
  have hall : ∀ (l2 : List CaseUpdateRow) (u2 : CaseUpdateRow), u2.case_id = top.case_.id →
      (∀ u ∈ l2, u.case_id = top.case_.id) → ∀ u ∈ l2 ++ [u2], u.case_id = top.case_.id := by
    intro l2 u2 h2 hl2 u hu2
    rcases List.mem_append.mp hu2 with h | h
    · exact hl2 u h
    · rcases List.mem_singleton.mp h with rfl
      exact h2
  unfold duplicatePath
  cases hf : findSource db s with
  | some row =>
    rw [linkSourceToCase_found env hu s top.case_.id db row hf]
    by_cases hml : 0 < a.mediaUrls.length
    · simp only [hml, if_true, addMediaToCase_eq env, createCaseUpdate_noFail env hu]
      refine ⟨_, rfl, rfl, rfl, rfl,
        ⟨linkUpdateRow s top.case_.id row.id ::
          [{ case_id := top.case_.id, source_id := s.id, update_type := "new_information",
             title := "Additional report of the same incident",
             description := "A new social media post about this incident was found on " ++
               s.platform ++ ".",
             is_public := true, importance := 2 }], by simp, by simp, ?_⟩,
        ⟨(if env.mediaInsertFails then [] else mkMediaRows top.case_.id s.id 0 a.mediaUrls), rfl,
          fun m hm2 => mem_mediaRowsIf env top.case_.id s.id 0 a.mediaUrls m hm2⟩,
        fun hmf => by simp [hmf]⟩
      intro u hu2
      rcases List.mem_cons.mp hu2 with rfl | hu3
      · rfl
      · rcases List.mem_cons.mp hu3 with rfl | hu4
        · rfl
        · simp at hu4
    · simp only [hml, if_false, createCaseUpdate_noFail env hu]
      refine ⟨_, rfl, rfl, rfl, rfl,
        ⟨linkUpdateRow s top.case_.id row.id ::
          [{ case_id := top.case_.id, source_id := s.id, update_type := "new_information",
             title := "Additional report of the same incident",
             description := "A new social media post about this incident was found on " ++
               s.platform ++ ".",
             is_public := true, importance := 2 }], by simp, by simp, ?_⟩,
        ⟨[], by simp, by simp⟩, fun _ => rfl⟩
      intro u hu2
      rcases List.mem_cons.mp hu2 with rfl | hu3
      · rfl
      · rcases List.mem_cons.mp hu3 with rfl | hu4
        · rfl
        · simp at hu4
  | none =>
    rw [linkSourceToCase_absent env hu hs s top.case_.id db hf]
    by_cases hml : 0 < a.mediaUrls.length
    · simp only [hml, if_true, addMediaToCase_eq env, createCaseUpdate_noFail env hu]
      refine ⟨_, rfl, rfl, rfl, rfl,
        ⟨linkUpdateRow s top.case_.id db.nextId ::
          [{ case_id := top.case_.id, source_id := s.id, update_type := "new_information",
             title := "Additional report of the same incident",
             description := "A new social media post about this incident was found on " ++
               s.platform ++ ".",
             is_public := true, importance := 2 }], by simp, by simp, ?_⟩,
        ⟨(if env.mediaInsertFails then [] else mkMediaRows top.case_.id s.id 0 a.mediaUrls), rfl,
          fun m hm2 => mem_mediaRowsIf env top.case_.id s.id 0 a.mediaUrls m hm2⟩,
        fun hmf => by simp [hmf]⟩
      intro u hu2
      rcases List.mem_cons.mp hu2 with rfl | hu3
      · rfl
      · rcases List.mem_cons.mp hu3 with rfl | hu4
        · rfl
        · simp at hu4
    · simp only [hml, if_false, createCaseUpdate_noFail env hu]
      refine ⟨_, rfl, rfl, rfl, rfl,
        ⟨linkUpdateRow s top.case_.id db.nextId ::
          [{ case_id := top.case_.id, source_id := s.id, update_type := "new_information",
             title := "Additional report of the same incident",
             description := "A new social media post about this incident was found on " ++
               s.platform ++ ".",
             is_public := true, importance := 2 }], by simp, by simp, ?_⟩,
        ⟨[], by simp, by simp⟩, fun _ => rfl⟩
      intro u hu2
      rcases List.mem_cons.mp hu2 with rfl | hu3
      · rfl
      · rcases List.mem_cons.mp hu3 with rfl | hu4
        · rfl
        · simp at hu4

theorem newCasePath_noFail (env : Env) (hc : env.caseInsertFails = false)
    (hu : env.updateInsertFails = false) (hs : env.sourceInsertFails = false)
    (nowMs : ℚ) (s : SocialMediaSource) (a : Analysis) (headline summary targetType : String)
    (td : TargetDetails) (li : LocationInfo) (dt : List String)
    (dups : List ScoredCase) (db : DB) :
    ∃ db2, newCasePath env nowMs s a headline summary targetType td li dt dups db =
        (.ok { caseId := db.nextId, isNewCase := true, isDuplicate := false }, db2) ∧
      db2.cases = db.cases ++ [newCaseRow nowMs db.nextId headline summary targetType td li dt a] ∧
      (env.relatedInsertFails = false →
        db2.related_cases = db.related_cases ++ dupPairs db.nextId dups) ∧
      db2.sources = (match findSource db s with
        | some _ => db.sources
        | none => db.sources ++ [mkSourceRow (db.nextId + 1) s]) ∧
      (env.mediaInsertFails = true → db2.case_media = db.case_media) ∧
      (env.relatedInsertFails = true → db2.related_cases = db.related_cases) := by
  unfold newCasePath
  simp only [hc, Bool.false_eq_true, if_false]
  have hid : (newCaseRow nowMs db.nextId headline summary targetType td li dt a).id = db.nextId := rfl
  rw [hid]
  have hfs : findSource { db with
      cases := db.cases ++ [newCaseRow nowMs db.nextId headline summary targetType td li dt a],
      nextId := db.nextId + 1 } s = findSource db s := rfl
  cases hf : findSource db s with
  | some row =>
    rw [linkSourceToCase_found env hu s db.nextId _ row (hfs.trans hf)]
    by_cases hml : 0 < a.mediaUrls.length
    · simp only [hml, if_true, addMediaToCase_eq env, linkDuplicates_eq env]
      refine ⟨_, rfl, rfl, fun hr => by simp [hr], rfl,
        fun hmf => by simp [hmf], fun hrf => by simp [hrf]⟩
    · simp only [hml, if_false, linkDuplicates_eq env]
      refine ⟨_, rfl, rfl, fun hr => by simp [hr], rfl,
        fun hmf => by simp [hmf], fun hrf => by simp [hrf]⟩
  | none =>
    rw [linkSourceToCase_absent env hu hs s db.nextId _ (hfs.trans hf)]
    by_cases hml : 0 < a.mediaUrls.length
    · simp only [hml, if_true, addMediaToCase_eq env, linkDuplicates_eq env]
      refine ⟨_, rfl, rfl, fun hr => by simp [hr], rfl,
        fun hmf => by simp [hmf], fun hrf => by simp [hrf]⟩
    · simp only [hml, if_false, linkDuplicates_eq env]
      refine ⟨_, rfl, rfl, fun hr => by simp [hr], rfl,
        fun hmf => by simp [hmf], fun hrf => by simp [hrf]⟩

def srcB : SocialMediaSource :=
  { id := none, platform := "twitter", platform_id := "t1", url := "u",
    author_username := "alice", author_display_name := none, author_avatar_url := none,
    content := "Tesla dealership vandalized with graffiti", posted_at := "p",
    is_reply := none, reply_to_id := none }

def anaB : Analysis :=
  { summary := none, locationInfo := some ⟨some "Austin", some "TX", some "US"⟩,
    vehicleInfo := none, mediaUrls := [], relevanceScore := none, text := none, platform := none }

def db0 : DB := ⟨[], [], [], [], [], 0⟩

def nc1 : CaseRow :=
  newCaseRow 0 0 (pipelineHeadline srcB anaB) (pipelineSummary srcB anaB)
    (pipelineTargetType srcB anaB) (pipelineTargetDetails srcB anaB)
    (pipelineLocationInfo anaB) (pipelineDamageType srcB anaB) anaB

def db1f : DB :=
  { cases := [nc1], sources := [mkSourceRow 1 srcB],
    case_updates := [linkUpdateRow srcB 0 1], case_media := [],
    related_cases := [], nextId := 2 }

theorem nc1_score :
    similarityScore (49 * 3600000) (pipelineLocationInfo anaB)
      (pipelineTargetDetails srcB anaB) (pipelineDamageType srcB anaB) nc1 = 4 / 5 := by
  have e1 : pipelineLocationInfo anaB =
    { city := some "Austin", state := some "TX", country := some "US" } := rfl
  have e2 : pipelineTargetDetails srcB anaB =
    { dtype := "building", make := none, model := none, color := none, year := none,
      building_type := some "other", property_type := none } := rfl
  have e3 : pipelineDamageType srcB anaB = ["graffiti"] := rfl
  have e4 : nc1.location_city = some "Austin" := rfl
  have e5 : nc1.location_state = some "TX" := rfl
  have e6 : nc1.target_type = "building" := rfl
  have e7 : nc1.damage_type = ["graffiti"] := rfl
  have e8 : nc1.created_at = 0 := rfl
  have e9 : ¬(("building" : String) = "vehicle") := by decide
  rw [e1, e2, e3]
  norm_num [similarityScore, timeProximityScore, ageHours, e4, e5, e6, e7, e8, e9,
    List.contains]

/-- C3 fails on the code: the same post processed twice, the second time 49
hours after the first, inserts a second Case row (the candidate score has
decayed to 0.8, below the 0.85 merge threshold), even though only one Source
row exists. -/
theorem C3_counterexample :
    ∃ db2, createCaseFromSocialMedia Env.ok (49 * 3600000) srcB anaB
        (createCaseFromSocialMedia Env.ok 0 srcB anaB db0).2 =
      (.ok { caseId := 2, isNewCase := true, isDuplicate := false }, db2) ∧
      db2.cases.length = 2 ∧ db2.sources.length = 1 := by
  have h1 : (createCaseFromSocialMedia Env.ok 0 srcB anaB db0).2 = db1f := rfl
  rw [h1]
  have h2a : pipelineDuplicates Env.ok (49 * 3600000) srcB anaB db1f =
      [⟨nc1, similarityScore (49 * 3600000) (pipelineLocationInfo anaB)
        (pipelineTargetDetails srcB anaB) (pipelineDamageType srcB anaB) nc1⟩] := rfl
  have hle : ∀ top, (pipelineDuplicates Env.ok (49 * 3600000) srcB anaB db1f).head? = some top →
      top.similarityScore ≤ 0.85 := by
    intro top h
    rw [h2a] at h
    simp only [List.head?_cons, Option.some.injEq] at h
    rw [← h]
    show similarityScore (49 * 3600000) (pipelineLocationInfo anaB)
      (pipelineTargetDetails srcB anaB) (pipelineDamageType srcB anaB) nc1 ≤ 0.85
    rw [nc1_score]; norm_num
  rw [createCase_eq_newCasePath Env.ok (49 * 3600000) srcB anaB db1f hle]
  obtain ⟨db2, heq, hcs, _, hsrc, _, _⟩ :=
    newCasePath_noFail Env.ok rfl rfl rfl (49 * 3600000) srcB anaB
      (pipelineHeadline srcB anaB) (pipelineSummary srcB anaB)
      (pipelineTargetType srcB anaB) (pipelineTargetDetails srcB anaB)
      (pipelineLocationInfo anaB) (pipelineDamageType srcB anaB)
      (pipelineDuplicates Env.ok (49 * 3600000) srcB anaB db1f) db1f
  rw [heq]
  refine ⟨db2, rfl, ?_, ?_⟩
  · rw [hcs]; rfl
  · rw [hsrc]; rfl

/-- How many stored Source rows carry the platform and platform id of the
given post (the uniqueness key of the `social_media_sources` table). -/
def countSrc (db : DB) (s : SocialMediaSource) : Nat :=
  (db.sources.filter (fun r =>
    r.platform == s.platform && r.platform_id == s.platform_id)).length

theorem findSource_eq_none_iff (db : DB) (s : SocialMediaSource) :
    findSource db s = none ↔ countSrc db s = 0 := by
  unfold findSource countSrc
  rw [List.find?_eq_none, List.length_eq_zero, List.filter_eq_nil_iff]

theorem createCase_ok_sources (nowMs : ℚ) (s : SocialMediaSource) (a : Analysis) (db : DB) :
    ∃ n, (createCaseFromSocialMedia Env.ok nowMs s a db).2.sources =
      (match findSource db s with
       | some _ => db.sources
       | none => db.sources ++ [mkSourceRow n s]) := by
  cases hh : (pipelineDuplicates Env.ok nowMs s a db).head? with
  | some top =>
    by_cases hgt : top.similarityScore > 0.85
    · rw [createCase_eq_duplicatePath Env.ok nowMs s a db top hh hgt]
      obtain ⟨db2, heq, _, _, hsrc, _, _, _⟩ := duplicatePath_noFail Env.ok rfl rfl s a top db
      rw [heq]
      exact ⟨db.nextId, hsrc⟩
    · have hle : ∀ t, (pipelineDuplicates Env.ok nowMs s a db).head? = some t →
          t.similarityScore ≤ 0.85 := by
        intro t ht
        rw [hh] at ht
        cases ht
        exact not_lt.mp hgt
      rw [createCase_eq_newCasePath Env.ok nowMs s a db hle]
      obtain ⟨db2, heq, _, _, hsrc, _, _⟩ :=
        newCasePath_noFail Env.ok rfl rfl rfl nowMs s a _ _ _ _ _ _ _ db
      rw [heq]
      exact ⟨db.nextId + 1, hsrc⟩
  | none =>
    have hle : ∀ t, (pipelineDuplicates Env.ok nowMs s a db).head? = some t →
        t.similarityScore ≤ 0.85 := by
      intro t ht
      rw [hh] at ht
      cases ht
    rw [createCase_eq_newCasePath Env.ok nowMs s a db hle]
    obtain ⟨db2, heq, _, _, hsrc, _, _⟩ :=
      newCasePath_noFail Env.ok rfl rfl rfl nowMs s a _ _ _ _ _ _ _ db
    rw [heq]
    exact ⟨db.nextId + 1, hsrc⟩

theorem countSrc_append_match (rows : List SourceRow) (s : SocialMediaSource) (n : Nat) :
    ((rows ++ [mkSourceRow n s]).filter (fun r =>
        r.platform == s.platform && r.platform_id == s.platform_id)).length =
      (rows.filter (fun r =>
        r.platform == s.platform && r.platform_id == s.platform_id)).length + 1 := by
  rw [List.filter_append]
  simp [mkSourceRow]

/-- C3, amended: two passes over the same (platform, platform_id) source
store exactly one Source row — the second pass finds the stored row and
performs no source insert — but the pass may still insert a second Case (see
the counterexample); only the source-level half of the claim holds. -/
theorem C3_amended (now1 now2 : ℚ) (s : SocialMediaSource) (a : Analysis) (db : DB)
    (h0 : countSrc db s = 0) :
    countSrc (createCaseFromSocialMedia Env.ok now1 s a db).2 s = 1 ∧
    (createCaseFromSocialMedia Env.ok now2 s a
        (createCaseFromSocialMedia Env.ok now1 s a db).2).2.sources =
      (createCaseFromSocialMedia Env.ok now1 s a db).2.sources ∧
    countSrc (createCaseFromSocialMedia Env.ok now2 s a
        (createCaseFromSocialMedia Env.ok now1 s a db).2).2 s = 1 := by
  have hf0 : findSource db s = none := (findSource_eq_none_iff db s).mpr h0
  obtain ⟨n1, h1⟩ := createCase_ok_sources now1 s a db
  rw [hf0] at h1
  have hc1 : countSrc (createCaseFromSocialMedia Env.ok now1 s a db).2 s = 1 := by
    unfold countSrc at h0 ⊢
    rw [h1, countSrc_append_match, h0]
  have hf1 : ¬ findSource (createCaseFromSocialMedia Env.ok now1 s a db).2 s = none := by
    rw [findSource_eq_none_iff, hc1]
    exact one_ne_zero
  obtain ⟨n2, h2⟩ := createCase_ok_sources now2 s a (createCaseFromSocialMedia Env.ok now1 s a db).2
  have h2s : (createCaseFromSocialMedia Env.ok now2 s a
      (createCaseFromSocialMedia Env.ok now1 s a db).2).2.sources =
      (createCaseFromSocialMedia Env.ok now1 s a db).2.sources := by
    cases hf : findSource (createCaseFromSocialMedia Env.ok now1 s a db).2 s with
    | none => exact absurd hf hf1
    | some r => rw [hf] at h2; exact h2
  refine ⟨hc1, h2s, ?_⟩
  unfold countSrc at hc1 ⊢
  rw [h2s]
  exact hc1

theorem C3_amended_witness :
    countSrc (createCaseFromSocialMedia Env.ok 0 srcB anaB db0).2 srcB = 1 ∧
    (createCaseFromSocialMedia Env.ok (49 * 3600000) srcB anaB
        (createCaseFromSocialMedia Env.ok 0 srcB anaB db0).2).2.sources =
      (createCaseFromSocialMedia Env.ok 0 srcB anaB db0).2.sources ∧
    countSrc (createCaseFromSocialMedia Env.ok (49 * 3600000) srcB anaB
        (createCaseFromSocialMedia Env.ok 0 srcB anaB db0).2).2 srcB = 1 :=
  C3_amended 0 (49 * 3600000) srcB anaB db0 rfl

theorem ite_add_split (A B : Prop) [Decidable A] [Decidable B] (x y : ℚ) :
    (if A then x + (if B then y else 0) else 0) =
      (if A then x else 0) + (if A ∧ B then y else 0) := by
  by_cases hA : A
  · by_cases hB : B
    · simp [hA, hB]
    · simp [hA, hB]
  · simp [hA]

def twoTagLi : LocationInfo := { city := some "Y", state := some "TX", country := some "US" }

def twoTagTd : TargetDetails :=
  { dtype := "building", make := none, model := none, color := none, year := none,
    building_type := some "other", property_type := none }

def twoTagCase : CaseRow :=
  { id := 7, headline := "h", summary := "s", target_type := "vehicle",
    target_details :=
      { dtype := "vehicle", make := some "Tesla", model := some "", color := some "",
        year := some "", building_type := none, property_type := none },
    location_city := some "X", location_state := some "TX", location_country := some "US",
    status := "reported", damage_type := ["keying", "arson"], ai_confidence := 0.7,
    is_verified := false, created_at := 0 }

/-- C2: the similarity score is the weighted sum of the city, state,
target-type, vehicle make/model, damage-overlap and time-proximity terms;
in particular a candidate holding one of the two damage tags of a two-tag
post, with nothing else matching, scores exactly the damage term 0.2 times
one half. -/
theorem C2_similarity_formula :
    (∀ (nowMs : ℚ) (li : LocationInfo) (td : TargetDetails) (dt : List String) (c : CaseRow),
      similarityScore nowMs li td dt c =
        (if c.location_city = li.city then 0.3 else 0) +
        (if c.location_city = li.city ∧ c.location_state = li.state then 0.1 else 0) +
        (if c.target_type = td.dtype then 0.2 else 0) +
        (if c.target_type = td.dtype ∧ c.target_type = "vehicle" ∧
            c.target_details.make = td.make ∧ c.target_details.model = td.model
         then 0.2 else 0) +
        (if 0 < (dt.filter (fun t => c.damage_type.contains t)).length then
            0.2 * (((dt.filter (fun t => c.damage_type.contains t)).length : ℚ) /
              (dt.length : ℚ))
          else 0) +
        (if ageHours nowMs c < 48 then 0.2 * (1 - ageHours nowMs c / 48) else 0)) ∧
    similarityScore (48 * 3600000) twoTagLi twoTagTd ["keying", "graffiti"] twoTagCase =
      0.2 * (1 / 2) := by
  constructor
  · intro nowMs li td dt c
    simp only [similarityScore, timeProximityScore]
    rw [ite_add_split, ite_add_split]
    ring
  · have e1 : ¬((some "X" : Option String) = some "Y") := by decide
    have e2 : ¬(("vehicle" : String) = "building") := by decide
    have e4 : decide (("graffiti" : String) = "keying") = false := by rfl
    have e5 : decide (("graffiti" : String) = "arson") = false := by rfl
    norm_num [similarityScore, timeProximityScore, ageHours, twoTagLi, twoTagTd, twoTagCase,
      e1, e2, e4, e5, List.contains, List.filter]

/-- C7: with the candidate and all matched fields fixed, the similarity
score is non-increasing in the candidate age over 0 to 48 hours, and from
48 hours on the time-proximity term is exactly 0. -/
theorem C7_time_monotone :
    (∀ (now1 now2 : ℚ) (li : LocationInfo) (td : TargetDetails) (dt : List String) (c : CaseRow),
      0 ≤ ageHours now1 c → ageHours now1 c ≤ ageHours now2 c → ageHours now2 c ≤ 48 →
      similarityScore now2 li td dt c ≤ similarityScore now1 li td dt c) ∧
    (∀ (nowMs : ℚ) (c : CaseRow), 48 ≤ ageHours nowMs c → timeProximityScore nowMs c = 0) := by
  constructor
  · intro now1 now2 li td dt c h0 h12 h48
    have ht : timeProximityScore now2 c ≤ timeProximityScore now1 c := by
      simp only [timeProximityScore]
      split_ifs with ha hb hb
      · linarith
      · linarith
      · linarith
      · linarith
    simp only [similarityScore]
    linarith [ht]
  · intro nowMs c h
    simp only [timeProximityScore]
    rw [if_neg (not_lt.mpr h)]

def c4td : TargetDetails :=
  { dtype := "vehicle", make := some "Tesla", model := some "Model 3", color := some "",
    year := some "", building_type := none, property_type := none }

def c4case : CaseRow :=
  { id := 0, headline := "h", summary := "s", target_type := "vehicle",
    target_details := c4td,
    location_city := some "Austin", location_state := some "TX",
    location_country := some "US", status := "reported", damage_type := ["keying"],
    ai_confidence := 0.7, is_verified := false, created_at := 0 }

def c4li : LocationInfo := { city := some "Austin", state := some "TX", country := some "US" }

/-- C4 fails on the code: a candidate matching on city, state, vehicle make
and model, full damage overlap and zero age scores 0.3 + 0.1 + 0.2 + 0.2 +
0.2 + 0.2 = 1.2, outside [0, 1]. -/
theorem C4_counterexample : ¬ (similarityScore 0 c4li c4td ["keying"] c4case ≤ 1) := by
  have e3 : decide (("keying" : String) = "keying") = true := by rfl
  norm_num [similarityScore, timeProximityScore, ageHours, c4li, c4td, c4case,
    e3, List.contains, List.filter]

theorem pipelineDuplicates_head_ge (env : Env) (nowMs : ℚ) (s : SocialMediaSource)
    (a : Analysis) (db : DB) (top : ScoredCase)
    (h : (pipelineDuplicates env nowMs s a db).head? = some top) :
    ∀ d ∈ pipelineDuplicates env nowMs s a db, d.similarityScore ≤ top.similarityScore :=
  findPotentialDuplicates_head_ge env nowMs (pipelineLocationInfo a)
    (pipelineTargetDetails s a) (pipelineDamageType s a) db top h

/-- C4, amended: with a non-negative candidate age the similarity score lies
in [0, 1.2] (the per-criterion maxima sum to 1.2, not 1), and every
relationship strength the engine stores does lie in [0, 1] (links are only
created for candidate scores in the interval (0.6, 0.85]). -/
theorem C4_amended :
    (∀ (nowMs : ℚ) (li : LocationInfo) (td : TargetDetails) (dt : List String) (c : CaseRow),
      0 ≤ ageHours nowMs c →
      0 ≤ similarityScore nowMs li td dt c ∧ similarityScore nowMs li td dt c ≤ 1.2) ∧
    (∀ (nowMs : ℚ) (s : SocialMediaSource) (a : Analysis) (db : DB) (r : RelatedCaseRow),
      r ∈ (createCaseFromSocialMedia Env.ok nowMs s a db).2.related_cases →
      r ∈ db.related_cases ∨
        (0 ≤ r.relationship_strength ∧ r.relationship_strength ≤ 1)) := by
  constructor
  · intro nowMs li td dt c h0
    have hfl : ((dt.filter (fun t => c.damage_type.contains t)).length : ℚ) ≤ (dt.length : ℚ) := by
      exact_mod_cast List.length_filter_le _ _
    have l1 : (0:ℚ) ≤ (if c.location_city = li.city then
          (0.3:ℚ) + (if c.location_state = li.state then 0.1 else 0) else 0) ∧
        (if c.location_city = li.city then
          (0.3:ℚ) + (if c.location_state = li.state then 0.1 else 0) else 0) ≤ 0.4 := by
      split_ifs <;> norm_num
    have l2 : (0:ℚ) ≤ (if c.target_type = td.dtype then
          (0.2:ℚ) + (if c.target_type = "vehicle" ∧
            c.target_details.make = td.make ∧ c.target_details.model = td.model
            then 0.2 else 0) else 0) ∧
        (if c.target_type = td.dtype then
          (0.2:ℚ) + (if c.target_type = "vehicle" ∧
            c.target_details.make = td.make ∧ c.target_details.model = td.model
            then 0.2 else 0) else 0) ≤ 0.4 := by
      split_ifs <;> norm_num
    have l3 : (0:ℚ) ≤ (if 0 < (dt.filter (fun t => c.damage_type.contains t)).length then
          (0.2:ℚ) * (((dt.filter (fun t => c.damage_type.contains t)).length : ℚ) /
            (dt.length : ℚ))
          else 0) ∧
        (if 0 < (dt.filter (fun t => c.damage_type.contains t)).length then
          (0.2:ℚ) * (((dt.filter (fun t => c.damage_type.contains t)).length : ℚ) /
            (dt.length : ℚ))
          else 0) ≤ 0.2 := by
      split_ifs with h
      · have hm : (0:ℚ) < ((dt.filter (fun t => c.damage_type.contains t)).length : ℚ) := by
          exact_mod_cast h
        have hn : (0:ℚ) < (dt.length : ℚ) := lt_of_lt_of_le hm hfl
        have hdiv : ((dt.filter (fun t => c.damage_type.contains t)).length : ℚ) /
            (dt.length : ℚ) ≤ 1 := by
          rw [div_le_one hn]
          exact hfl
        have hdiv0 : (0:ℚ) ≤ ((dt.filter (fun t => c.damage_type.contains t)).length : ℚ) /
            (dt.length : ℚ) := le_of_lt (div_pos hm hn)
        constructor <;> nlinarith
      · norm_num
    have l4 : (0:ℚ) ≤ timeProximityScore nowMs c ∧ timeProximityScore nowMs c ≤ 0.2 := by
      simp only [timeProximityScore]
      split_ifs with h
      · constructor <;> nlinarith
      · norm_num
    simp only [similarityScore]
    constructor
    · linarith [l1.1, l2.1, l3.1, l4.1]
    · linarith [l1.2, l2.2, l3.2, l4.2]
  · intro nowMs s a db r hr
    cases hh : (pipelineDuplicates Env.ok nowMs s a db).head? with
    | some top =>
      by_cases hgt : top.similarityScore > 0.85
      · rw [createCase_eq_duplicatePath Env.ok nowMs s a db top hh hgt] at hr
        obtain ⟨db2, heq, _, hrel, _, _, _, _⟩ := duplicatePath_noFail Env.ok rfl rfl s a top db
        rw [heq] at hr
        exact Or.inl (hrel ▸ hr)
      · have hle : ∀ t, (pipelineDuplicates Env.ok nowMs s a db).head? = some t →
            t.similarityScore ≤ 0.85 := by
          intro t ht
          rw [hh] at ht
          cases ht
          exact not_lt.mp hgt
        rw [createCase_eq_newCasePath Env.ok nowMs s a db hle] at hr
        obtain ⟨db2, heq, _, hrel, _, _, _⟩ :=
          newCasePath_noFail Env.ok rfl rfl rfl nowMs s a _ _ _ _ _ _ _ db
        rw [heq] at hr
        rw [hrel rfl] at hr
        rcases List.mem_append.mp hr with hold | hnew
        · exact Or.inl hold
        · rcases mem_dupPairs db.nextId _ r hnew with ⟨d, hd, h06, hor⟩
          have hdle : d.similarityScore ≤ top.similarityScore :=
            pipelineDuplicates_head_ge Env.ok nowMs s a db top hh d hd
          have h85 : d.similarityScore ≤ 0.85 := le_trans hdle (not_lt.mp hgt)
          refine Or.inr ?_
          rcases hor with rfl | rfl
          · exact ⟨by norm_num; linarith, by norm_num; linarith⟩
          · exact ⟨by norm_num; linarith, by norm_num; linarith⟩
    | none =>
      have hle : ∀ t, (pipelineDuplicates Env.ok nowMs s a db).head? = some t →
          t.similarityScore ≤ 0.85 := by
        intro t ht
        rw [hh] at ht
        cases ht
      rw [createCase_eq_newCasePath Env.ok nowMs s a db hle] at hr
      obtain ⟨db2, heq, _, hrel, _, _, _⟩ :=
        newCasePath_noFail Env.ok rfl rfl rfl nowMs s a _ _ _ _ _ _ _ db
      rw [heq] at hr
      rw [hrel rfl, List.head?_eq_none_iff.mp hh] at hr
      simp only [dupPairs, List.append_nil] at hr
      exact Or.inl hr

theorem dupPairs_mirror (newCaseId : Nat) (ds : List ScoredCase) (r : RelatedCaseRow)
    (hr : r ∈ dupPairs newCaseId ds) :
    ({ case_id := r.related_case_id, related_case_id := r.case_id,
       relationship_type := r.relationship_type,
       relationship_strength := r.relationship_strength,
       is_ai_generated := r.is_ai_generated } : RelatedCaseRow) ∈ dupPairs newCaseId ds := by
  rcases mem_dupPairs newCaseId ds r hr with ⟨d, hd, h06, rfl | rfl⟩
  · exact (dupPairs_mem_of newCaseId ds d hd h06).2
  · exact (dupPairs_mem_of newCaseId ds d hd h06).1

/-- C8: one `linkRelatedCases` call inserts the forward and the reverse row
with the same type and strength when the store accepts the insert, and
writes neither row when the store errors (the error is discarded, so never
just one direction); consequently every related-case row a pipeline run
adds has its mirror row in the resulting store. -/
theorem C8_bidirectional_links :
    (∀ (env : Env) (a b : Nat) (t : String) (strength : ℚ) (db : DB),
      (env.relatedInsertFails = false →
        linkRelatedCases env a b t strength db =
          (.ok (), { db with related_cases := db.related_cases ++
            [{ case_id := a, related_case_id := b, relationship_type := t,
               relationship_strength := strength, is_ai_generated := true },
             { case_id := b, related_case_id := a, relationship_type := t,
               relationship_strength := strength, is_ai_generated := true }] })) ∧
      (env.relatedInsertFails = true →
        (linkRelatedCases env a b t strength db).2 = db)) ∧
    (∀ (nowMs : ℚ) (s : SocialMediaSource) (a : Analysis) (db : DB) (r : RelatedCaseRow),
      r ∈ (createCaseFromSocialMedia Env.ok nowMs s a db).2.related_cases →
      r ∈ db.related_cases ∨
        ({ case_id := r.related_case_id, related_case_id := r.case_id,
           relationship_type := r.relationship_type,
           relationship_strength := r.relationship_strength,
           is_ai_generated := r.is_ai_generated } : RelatedCaseRow) ∈
          (createCaseFromSocialMedia Env.ok nowMs s a db).2.related_cases) := by
  constructor
  · intro env a b t strength db
    constructor
    · intro hf
      exact linkRelatedCases_noFail env hf a b t strength db
    · intro hf
      simp [linkRelatedCases, hf]
  · intro nowMs s a db r hr
    cases hh : (pipelineDuplicates Env.ok nowMs s a db).head? with
    | some top =>
      by_cases hgt : top.similarityScore > 0.85
      · rw [createCase_eq_duplicatePath Env.ok nowMs s a db top hh hgt] at hr ⊢
        obtain ⟨db2, heq, _, hrel, _, _, _, _⟩ := duplicatePath_noFail Env.ok rfl rfl s a top db
        rw [heq] at hr ⊢
        exact Or.inl (hrel ▸ hr)
      · have hle : ∀ t2, (pipelineDuplicates Env.ok nowMs s a db).head? = some t2 →
            t2.similarityScore ≤ 0.85 := by
          intro t2 ht
          rw [hh] at ht
          cases ht
          exact not_lt.mp hgt
        rw [createCase_eq_newCasePath Env.ok nowMs s a db hle] at hr ⊢
        obtain ⟨db2, heq, _, hrel, _, _, _⟩ :=
          newCasePath_noFail Env.ok rfl rfl rfl nowMs s a _ _ _ _ _ _ _ db
        rw [heq] at hr ⊢
        rw [hrel rfl] at hr ⊢
        rcases List.mem_append.mp hr with hold | hnew
        · exact Or.inl hold
        · exact Or.inr (List.mem_append_right _ (dupPairs_mirror db.nextId _ r hnew))
    | none =>
      have hle : ∀ t2, (pipelineDuplicates Env.ok nowMs s a db).head? = some t2 →
          t2.similarityScore ≤ 0.85 := by
        intro t2 ht
        rw [hh] at ht
        cases ht
      rw [createCase_eq_newCasePath Env.ok nowMs s a db hle] at hr
      obtain ⟨db2, heq, _, hrel, _, _, _⟩ :=
        newCasePath_noFail Env.ok rfl rfl rfl nowMs s a _ _ _ _ _ _ _ db
      rw [heq] at hr
      rw [hrel rfl, List.head?_eq_none_iff.mp hh] at hr
      simp only [dupPairs, List.append_nil] at hr
      exact Or.inl hr

/-- C1: with a successful store, when the top duplicate candidate scores
above 0.85 the run attaches the source to that case through case updates and
inserts no case row, answering isDuplicate and not isNewCase; otherwise it
inserts exactly one new case, answers isNewCase and not isDuplicate, and
links every candidate scoring above 0.6 (all of which score at most 0.85)
bidirectionally as a possible duplicate with strength equal to its score. -/
theorem C1_decision_policy (nowMs : ℚ) (source : SocialMediaSource) (analysis : Analysis)
    (db : DB) :
    (∀ top, (pipelineDuplicates Env.ok nowMs source analysis db).head? = some top →
      0.85 < top.similarityScore →
      ∃ db2, createCaseFromSocialMedia Env.ok nowMs source analysis db =
          (.ok { caseId := top.case_.id, isNewCase := false, isDuplicate := true }, db2) ∧
        db2.cases = db.cases ∧
        ∃ l, db2.case_updates = db.case_updates ++ l ∧ l ≠ [] ∧
          ∀ u ∈ l, u.case_id = top.case_.id) ∧
    ((∀ top, (pipelineDuplicates Env.ok nowMs source analysis db).head? = some top →
        top.similarityScore ≤ 0.85) →
      ∃ db2, createCaseFromSocialMedia Env.ok nowMs source analysis db =
          (.ok { caseId := db.nextId, isNewCase := true, isDuplicate := false }, db2) ∧
        db2.cases = db.cases ++ [newCaseRow nowMs db.nextId (pipelineHeadline source analysis)
          (pipelineSummary source analysis) (pipelineTargetType source analysis)
          (pipelineTargetDetails source analysis) (pipelineLocationInfo analysis)
          (pipelineDamageType source analysis) analysis] ∧
        ∀ d ∈ pipelineDuplicates Env.ok nowMs source analysis db,
          0.6 < d.similarityScore →
            d.similarityScore ≤ 0.85 ∧
            ({ case_id := db.nextId, related_case_id := d.case_.id,
               relationship_type := "possible_duplicate",
               relationship_strength := d.similarityScore,
               is_ai_generated := true } : RelatedCaseRow) ∈ db2.related_cases ∧
            ({ case_id := d.case_.id, related_case_id := db.nextId,
               relationship_type := "possible_duplicate",
               relationship_strength := d.similarityScore,
               is_ai_generated := true } : RelatedCaseRow) ∈ db2.related_cases) := by
  constructor
  · intro top hh hgt
    rw [createCase_eq_duplicatePath Env.ok nowMs source analysis db top hh hgt]
    obtain ⟨db2, heq, hcases, _, _, hupd, _, _⟩ :=
      duplicatePath_noFail Env.ok rfl rfl source analysis top db
    exact ⟨db2, heq, hcases, hupd⟩
  · intro hle
    rw [createCase_eq_newCasePath Env.ok nowMs source analysis db hle]
    obtain ⟨db2, heq, hcases, hrel, _, _, _⟩ :=
      newCasePath_noFail Env.ok rfl rfl rfl nowMs source analysis _ _ _ _ _ _ _ db
    refine ⟨db2, heq, hcases, ?_⟩
    intro d hd h06
    have h85 : d.similarityScore ≤ 0.85 := by
      cases hl : (pipelineDuplicates Env.ok nowMs source analysis db).head? with
      | none =>
        rw [List.head?_eq_none_iff.mp hl] at hd
        simp at hd
      | some t2 =>
        exact le_trans (pipelineDuplicates_head_ge Env.ok nowMs source analysis db t2 hl d hd)
          (hle t2 hl)
    have hmem := dupPairs_mem_of db.nextId
      (pipelineDuplicates Env.ok nowMs source analysis db) d hd h06
    rw [hrel rfl]
    exact ⟨h85, List.mem_append_right _ hmem.1, List.mem_append_right _ hmem.2⟩

/-- C10: on the duplicate branch no case row is touched and no related-case
row is written; the only writes are the source row when absent, case-update
rows for the matched case, and case-media rows for the matched case. -/
theorem C10_duplicate_frame (nowMs : ℚ) (s : SocialMediaSource) (a : Analysis) (db : DB)
    (top : ScoredCase)
    (hh : (pipelineDuplicates Env.ok nowMs s a db).head? = some top)
    (hgt : 0.85 < top.similarityScore) :
    ∃ db2, createCaseFromSocialMedia Env.ok nowMs s a db =
        (.ok { caseId := top.case_.id, isNewCase := false, isDuplicate := true }, db2) ∧
      db2.cases = db.cases ∧
      db2.related_cases = db.related_cases ∧
      db2.sources = (match findSource db s with
        | some _ => db.sources
        | none => db.sources ++ [mkSourceRow db.nextId s]) ∧
      (∃ l, db2.case_updates = db.case_updates ++ l ∧ ∀ u ∈ l, u.case_id = top.case_.id) ∧
      (∃ lm, db2.case_media = db.case_media ++ lm ∧ ∀ m ∈ lm, m.case_id = top.case_.id) := by
  rw [createCase_eq_duplicatePath Env.ok nowMs s a db top hh hgt]
  obtain ⟨db2, heq, h1, h2, h3, ⟨l, hl, _, hall⟩, h5, _⟩ :=
    duplicatePath_noFail Env.ok rfl rfl s a top db
  exact ⟨db2, heq, h1, h2, h3, ⟨l, hl, hall⟩, h5⟩

theorem nc1_score_1h :
    similarityScore 3600000 (pipelineLocationInfo anaB)
      (pipelineTargetDetails srcB anaB) (pipelineDamageType srcB anaB) nc1 = 239 / 240 := by
  have e1 : pipelineLocationInfo anaB =
    { city := some "Austin", state := some "TX", country := some "US" } := rfl
  have e2 : pipelineTargetDetails srcB anaB =
    { dtype := "building", make := none, model := none, color := none, year := none,
      building_type := some "other", property_type := none } := rfl
  have e3 : pipelineDamageType srcB anaB = ["graffiti"] := rfl
  have e4 : nc1.location_city = some "Austin" := rfl
  have e5 : nc1.location_state = some "TX" := rfl
  have e6 : nc1.target_type = "building" := rfl
  have e7 : nc1.damage_type = ["graffiti"] := rfl
  have e8 : nc1.created_at = 0 := rfl
  have e9 : ¬(("building" : String) = "vehicle") := by decide
  rw [e1, e2, e3]
  norm_num [similarityScore, timeProximityScore, ageHours, e4, e5, e6, e7, e8, e9,
    List.contains]

def topW : ScoredCase :=
  ⟨nc1, similarityScore 3600000 (pipelineLocationInfo anaB)
    (pipelineTargetDetails srcB anaB) (pipelineDamageType srcB anaB) nc1⟩

theorem C10_witness :
    ∃ db2, createCaseFromSocialMedia Env.ok 3600000 srcB anaB db1f =
        (.ok { caseId := topW.case_.id, isNewCase := false, isDuplicate := true }, db2) ∧
      db2.cases = db1f.cases ∧
      db2.related_cases = db1f.related_cases ∧
      db2.sources = (match findSource db1f srcB with
        | some _ => db1f.sources
        | none => db1f.sources ++ [mkSourceRow db1f.nextId srcB]) ∧
      (∃ l, db2.case_updates = db1f.case_updates ++ l ∧ ∀ u ∈ l, u.case_id = topW.case_.id) ∧
      (∃ lm, db2.case_media = db1f.case_media ++ lm ∧ ∀ m ∈ lm, m.case_id = topW.case_.id) :=
  C10_duplicate_frame 3600000 srcB anaB db1f topW rfl (by
    show (0.85 : ℚ) < similarityScore 3600000 (pipelineLocationInfo anaB)
      (pipelineTargetDetails srcB anaB) (pipelineDamageType srcB anaB) nc1
    rw [nc1_score_1h]
    norm_num)

/-- The run in which only the candidate query fails. -/
def envQ : Env := ⟨true, false, false, false, false, false⟩

/-- The run in which only case-update inserts fail. -/
def envU : Env := ⟨false, false, false, true, false, false⟩

/-- The run in which only the cases insert fails. -/
def envC : Env := ⟨false, true, false, false, false, false⟩

/-- The run in which only source inserts fail. -/
def envS : Env := ⟨false, false, true, false, false, false⟩

/-- The run in which only case-media inserts fail. -/
def envM : Env := ⟨false, false, false, false, true, false⟩

/-- The run in which only related-case inserts fail. -/
def envR : Env := ⟨false, false, false, false, false, true⟩

/-- C6 fails on the code as stated: with the candidate query failing (a
persistence failure inside findPotentialDuplicates), the same input that a
healthy store merges as a duplicate instead resolves successfully as a brand
new case — the failure is caught and swallowed, not propagated. -/
theorem C6_counterexample :
    (createCaseFromSocialMedia envQ 3600000 srcB anaB db1f).1 =
      .ok { caseId := 2, isNewCase := true, isDuplicate := false } ∧
    (createCaseFromSocialMedia Env.ok 3600000 srcB anaB db1f).1 =
      .ok { caseId := 0, isNewCase := false, isDuplicate := true } := by
  constructor
  · rfl
  · rw [createCase_eq_duplicatePath Env.ok 3600000 srcB anaB db1f topW rfl (by
      show (0.85 : ℚ) < similarityScore 3600000 (pipelineLocationInfo anaB)
        (pipelineTargetDetails srcB anaB) (pipelineDamageType srcB anaB) nc1
      rw [nc1_score_1h]
      norm_num)]
    rfl

theorem duplicatePath_updateFail (s : SocialMediaSource) (a : Analysis) (top : ScoredCase)
    (db : DB) :
    ∃ db2, duplicatePath envU s a top db = (.error "case_updates insert failed", db2) ∧
      (findSource db s = none →
        ∃ r ∈ db2.sources, r.platform = s.platform ∧ r.platform_id = s.platform_id) := by
  unfold duplicatePath
  cases hf : findSource db s with
  | some row =>
    rw [linkSourceToCase_updateFail_found envU rfl s top.case_.id db row hf]
    exact ⟨db, rfl, fun hn => Option.noConfusion hn⟩
  | none =>
    rw [linkSourceToCase_updateFail_absent envU rfl rfl s top.case_.id db hf]
    exact ⟨_, rfl, fun _ =>
      ⟨mkSourceRow db.nextId s, List.mem_append_right _ (List.mem_singleton.mpr rfl), rfl, rfl⟩⟩

theorem newCasePath_updateFail (nowMs : ℚ) (s : SocialMediaSource) (a : Analysis)
    (headline summary targetType : String) (td : TargetDetails) (li : LocationInfo)
    (dt : List String) (dups : List ScoredCase) (db : DB) :
    ∃ db2, newCasePath envU nowMs s a headline summary targetType td li dt dups db =
        (.error "case_updates insert failed", db2) ∧
      (findSource db s = none →
        ∃ r ∈ db2.sources, r.platform = s.platform ∧ r.platform_id = s.platform_id) := by
  unfold newCasePath
  simp only [show envU.caseInsertFails = false from rfl, Bool.false_eq_true, if_false]
  have hfs : findSource { db with
      cases := db.cases ++ [newCaseRow nowMs db.nextId headline summary targetType td li dt a],
      nextId := db.nextId + 1 } s = findSource db s := rfl
  cases hf : findSource db s with
  | some row =>
    rw [linkSourceToCase_updateFail_found envU rfl s _ _ row (hfs.trans hf)]
    exact ⟨_, rfl, fun hn => Option.noConfusion hn⟩
  | none =>
    rw [linkSourceToCase_updateFail_absent envU rfl rfl s _ _ (hfs.trans hf)]
    exact ⟨_, rfl, fun _ =>
      ⟨mkSourceRow (db.nextId + 1) s,
        List.mem_append_right _ (List.mem_singleton.mpr rfl), rfl, rfl⟩⟩

theorem newCasePath_sourceFail (nowMs : ℚ) (s : SocialMediaSource) (a : Analysis)
    (headline summary targetType : String) (td : TargetDetails) (li : LocationInfo)
    (dt : List String) (dups : List ScoredCase) (db : DB) (hf : findSource db s = none) :
    ∃ db2, newCasePath envS nowMs s a headline summary targetType td li dt dups db =
        (.error "social_media_sources insert failed", db2) ∧
      db2.cases.length = db.cases.length + 1 := by
  unfold newCasePath
  simp only [show envS.caseInsertFails = false from rfl, Bool.false_eq_true, if_false]
  have hfs : findSource { db with
      cases := db.cases ++ [newCaseRow nowMs db.nextId headline summary targetType td li dt a],
      nextId := db.nextId + 1 } s = findSource db s := rfl
  rw [linkSourceToCase_sourceFail envS rfl s _ _ (hfs.trans hf)]
  exact ⟨_, rfl, by simp⟩

/-- C6, amended: failures of the cases insert, the social-media-sources
insert and the case-updates insert propagate uncaught out of
createCaseFromSocialMedia, and writes already performed (the stored source
row, the inserted case row) stay in place, not rolled back.  But a failure
of the case-media insert or of the related-cases insert is discarded (the
code never checks those two insert results): the rows are simply not
written and the run still resolves successfully.  And a failure of the
candidate query inside findPotentialDuplicates is caught there, an empty
candidate list is used, and the run completes by creating a new case. -/
theorem C6_amended :
    (∀ (nowMs : ℚ) (s : SocialMediaSource) (a : Analysis) (db : DB),
      ∃ e db2, createCaseFromSocialMedia envU nowMs s a db = (.error e, db2) ∧
        (findSource db s = none →
          ∃ r ∈ db2.sources, r.platform = s.platform ∧ r.platform_id = s.platform_id)) ∧
    (∀ (nowMs : ℚ) (s : SocialMediaSource) (a : Analysis) (db : DB),
      (∀ top, (pipelineDuplicates envC nowMs s a db).head? = some top →
        top.similarityScore ≤ 0.85) →
      createCaseFromSocialMedia envC nowMs s a db = (.error "cases insert failed", db)) ∧
    (∀ (nowMs : ℚ) (s : SocialMediaSource) (a : Analysis) (db : DB),
      findSource db s = none →
      (∀ top, (pipelineDuplicates envS nowMs s a db).head? = some top →
        top.similarityScore ≤ 0.85) →
      ∃ db2, createCaseFromSocialMedia envS nowMs s a db =
          (.error "social_media_sources insert failed", db2) ∧
        db2.cases.length = db.cases.length + 1) ∧
    (∀ (nowMs : ℚ) (s : SocialMediaSource) (a : Analysis) (db : DB),
      ∃ res db2, createCaseFromSocialMedia envM nowMs s a db = (.ok res, db2) ∧
        db2.case_media = db.case_media) ∧
    (∀ (nowMs : ℚ) (s : SocialMediaSource) (a : Analysis) (db : DB),
      ∃ res db2, createCaseFromSocialMedia envR nowMs s a db = (.ok res, db2) ∧
        db2.related_cases = db.related_cases) ∧
    (∀ (nowMs : ℚ) (s : SocialMediaSource) (a : Analysis) (db : DB),
      ∃ db2, createCaseFromSocialMedia envQ nowMs s a db =
        (.ok { caseId := db.nextId, isNewCase := true, isDuplicate := false }, db2)) := by
  refine ⟨?_, ?_, ?_, ?_, ?_, ?_⟩
  · intro nowMs s a db
    cases hh : (pipelineDuplicates envU nowMs s a db).head? with
    | some top =>
      by_cases hgt : top.similarityScore > 0.85
      · rw [createCase_eq_duplicatePath envU nowMs s a db top hh hgt]
        obtain ⟨db2, hl, hsrc⟩ := duplicatePath_updateFail s a top db
        exact ⟨_, db2, hl, hsrc⟩
      · have hle : ∀ t2, (pipelineDuplicates envU nowMs s a db).head? = some t2 →
            t2.similarityScore ≤ 0.85 := by
          intro t2 ht
          rw [hh] at ht
          cases ht
          exact not_lt.mp hgt
        rw [createCase_eq_newCasePath envU nowMs s a db hle]
        obtain ⟨db2, hl, hsrc⟩ := newCasePath_updateFail nowMs s a _ _ _ _ _ _ _ db
        exact ⟨_, db2, hl, hsrc⟩
    | none =>
      have hle : ∀ t2, (pipelineDuplicates envU nowMs s a db).head? = some t2 →
          t2.similarityScore ≤ 0.85 := by
        intro t2 ht
        rw [hh] at ht
        cases ht
      rw [createCase_eq_newCasePath envU nowMs s a db hle]
      obtain ⟨db2, hl, hsrc⟩ := newCasePath_updateFail nowMs s a _ _ _ _ _ _ _ db
      exact ⟨_, db2, hl, hsrc⟩
  · intro nowMs s a db hle
    rw [createCase_eq_newCasePath envC nowMs s a db hle]
    rfl
  · intro nowMs s a db hf hle
    rw [createCase_eq_newCasePath envS nowMs s a db hle]
    exact newCasePath_sourceFail nowMs s a _ _ _ _ _ _ _ db hf
  · intro nowMs s a db
    cases hh : (pipelineDuplicates envM nowMs s a db).head? with
    | some top =>
      by_cases hgt : top.similarityScore > 0.85
      · rw [createCase_eq_duplicatePath envM nowMs s a db top hh hgt]
        obtain ⟨db2, heq, _, _, _, _, _, hmed⟩ := duplicatePath_noFail envM rfl rfl s a top db
        exact ⟨_, db2, heq, hmed rfl⟩
      · have hle : ∀ t2, (pipelineDuplicates envM nowMs s a db).head? = some t2 →
            t2.similarityScore ≤ 0.85 := by
          intro t2 ht
          rw [hh] at ht
          cases ht
          exact not_lt.mp hgt
        rw [createCase_eq_newCasePath envM nowMs s a db hle]
        obtain ⟨db2, heq, _, _, _, hmed, _⟩ :=
          newCasePath_noFail envM rfl rfl rfl nowMs s a _ _ _ _ _ _ _ db
        exact ⟨_, db2, heq, hmed rfl⟩
    | none =>
      have hle : ∀ t2, (pipelineDuplicates envM nowMs s a db).head? = some t2 →
          t2.similarityScore ≤ 0.85 := by
        intro t2 ht
        rw [hh] at ht
        cases ht
      rw [createCase_eq_newCasePath envM nowMs s a db hle]
      obtain ⟨db2, heq, _, _, _, hmed, _⟩ :=
        newCasePath_noFail envM rfl rfl rfl nowMs s a _ _ _ _ _ _ _ db
      exact ⟨_, db2, heq, hmed rfl⟩
  · intro nowMs s a db
    cases hh : (pipelineDuplicates envR nowMs s a db).head? with
    | some top =>
      by_cases hgt : top.similarityScore > 0.85
      · rw [createCase_eq_duplicatePath envR nowMs s a db top hh hgt]
        obtain ⟨db2, heq, _, hrel, _, _, _, _⟩ := duplicatePath_noFail envR rfl rfl s a top db
        exact ⟨_, db2, heq, hrel⟩
      · have hle : ∀ t2, (pipelineDuplicates envR nowMs s a db).head? = some t2 →
            t2.similarityScore ≤ 0.85 := by
          intro t2 ht
          rw [hh] at ht
          cases ht
          exact not_lt.mp hgt
        rw [createCase_eq_newCasePath envR nowMs s a db hle]
        obtain ⟨db2, heq, _, _, _, _, hrel⟩ :=
          newCasePath_noFail envR rfl rfl rfl nowMs s a _ _ _ _ _ _ _ db
        exact ⟨_, db2, heq, hrel rfl⟩
    | none =>
      have hle : ∀ t2, (pipelineDuplicates envR nowMs s a db).head? = some t2 →
          t2.similarityScore ≤ 0.85 := by
        intro t2 ht
        rw [hh] at ht
        cases ht
      rw [createCase_eq_newCasePath envR nowMs s a db hle]
      obtain ⟨db2, heq, _, _, _, _, hrel⟩ :=
        newCasePath_noFail envR rfl rfl rfl nowMs s a _ _ _ _ _ _ _ db
      exact ⟨_, db2, heq, hrel rfl⟩
  · intro nowMs s a db
    have hle : ∀ t2, (pipelineDuplicates envQ nowMs s a db).head? = some t2 →
        t2.similarityScore ≤ 0.85 := by
      intro t2 ht
      rw [show pipelineDuplicates envQ nowMs s a db = [] from rfl] at ht
      cases ht
    rw [createCase_eq_newCasePath envQ nowMs s a db hle]
    obtain ⟨db2, heq, _, _, _, _, _⟩ :=
      newCasePath_noFail envQ rfl rfl rfl nowMs s a _ _ _ _ _ _ _ db
    exact ⟨db2, heq⟩

/-- C9: generateHeadline and generateSummary are pure functions of their
arguments — two invocations on equal content, analysis and target type
return equal strings. -/
theorem C9_synthesis_deterministic (c1 c2 : String) (a1 a2 : Analysis) (t1 t2 : String)
    (hc : c1 = c2) (ha : a1 = a2) (ht : t1 = t2) :
    generateHeadline c1 a1 t1 = generateHeadline c2 a2 t2 ∧
    generateSummary c1 a1 t1 = generateSummary c2 a2 t2 := by
  subst hc
  subst ha
  subst ht
  exact ⟨rfl, rfl⟩

theorem C9_witness :
    generateHeadline "Tesla keyed in Austin" anaB "vehicle" =
      generateHeadline "Tesla keyed in Austin" anaB "vehicle" ∧
    generateSummary "Tesla keyed in Austin" anaB "vehicle" =
      generateSummary "Tesla keyed in Austin" anaB "vehicle" :=
  C9_synthesis_deterministic "Tesla keyed in Austin" "Tesla keyed in Austin" anaB anaB
    "vehicle" "vehicle" rfl rfl rfl

namespace aiAnalysis

/-- Content classification thresholds of the aiAnalysis module. -/
def RELEVANCE_THRESHOLD : ℚ := 0.7

def VANDALISM_THRESHOLD : ℚ := 0.8

def teslaKeywords : List String :=
  ["tesla", "cybertruck", "model s", "model 3", "model x", "model y"]

def vandalismKeywords : List String :=
  ["vandalism", "vandalized", "damaged", "keyed", "scratched", "broken", "smashed", "graffiti"]

/-- JavaScript regex class \s, restricted to its ASCII members (the Unicode
space characters it also covers never occur in the embedded inputs). -/
def isSpaceChar (c : Char) : Bool :=
  c = ' ' || c = '\t' || c = '\n' || c = '\r' || c = '\x0c' || c = '\x0b'

/-- The character class [A-Za-z\s] of the city-state regex. -/
def isCityChar (c : Char) : Bool :=
  ('A' ≤ c && c ≤ 'Z') || ('a' ≤ c && c ≤ 'z') || isSpaceChar c

def isUpperAZ (c : Char) : Bool := 'A' ≤ c && c ≤ 'Z'

/-- JavaScript String.prototype.trim on a character list (ASCII whitespace,
as above). -/
def trimChars (cs : List Char) : List Char :=
  ((cs.dropWhile isSpaceChar).reverse.dropWhile isSpaceChar).reverse

/-- One attempt of the regex /in ([A-Za-z\s]+),\s*([A-Z]\x7b2\x7d)/ at the
head of the list, returning the two capture groups.  The match is
deterministic: the comma is outside the greedy class [A-Za-z\s], so the
first group is exactly the maximal class run after "in ", and the two
upper-case letters sit right after the comma and the whitespace run. -/
def cityStateAt : List Char → Option (List Char × List Char)
  | 'i' :: 'n' :: ' ' :: cs =>
    let run := cs.takeWhile isCityChar
    if run.isEmpty then none
    else
      match cs.dropWhile isCityChar with
      | ',' :: rest =>
        match rest.dropWhile isSpaceChar with
        | c1 :: c2 :: _ => if isUpperAZ c1 && isUpperAZ c2 then some (run, [c1, c2]) else none
        | _ => none
      | _ => none
  | _ => none

/-- Leftmost match of the city-state regex: try each position in turn. -/
def findCityState : List Char → Option (List Char × List Char)
  | [] => none
  | c :: cs =>
    match cityStateAt (c :: cs) with
    | some r => some r
    | none => findCityState cs

/-- Holds the extracted location the analyzer returns (city and state are
empty strings when the pattern does not match). -/
structure ExtractedLocation where
  city : String
  state : String
  country : String
  confidence : ℚ
deriving Repr, DecidableEq

/-- extractLocationInfo (aiAnalysis): match the city-state pattern, trim
the city group, default country "US". -/
def extractLocationInfo (text : String) : ExtractedLocation :=
  match findCityState text.toList with
  | some (run, st) =>
    { city := String.mk (trimChars run), state := String.mk st,
      country := "US", confidence := 0.8 }
  | none => { city := "", state := "", country := "US", confidence := 0.2 }

/-- One attempt of a pattern of the form /model\s*X/i at the head of the
(already lowered) list: the literal "model", a whitespace run, then the
target character. -/
def modelPatAt (target : Char) (cs : List Char) : Bool :=
  isPrefixL ['m', 'o', 'd', 'e', 'l'] cs &&
    match (cs.drop 5).dropWhile isSpaceChar with
    | d :: _ => d == target
    | [] => false

/-- RegExp.test for /model\s*X/i against the lowered text. -/
def modelPatTest (target : Char) : List Char → Bool
  | [] => false
  | c :: cs => modelPatAt target (c :: cs) || modelPatTest target cs

/-- Holds the extracted vehicle attributes the analyzer returns. -/
structure ExtractedVehicle where
  make : String
  model : String
  color : String
  year : String
  confidence : ℚ
deriving Repr, DecidableEq

def isDigit09 (c : Char) : Bool := '0' ≤ c && c ≤ '9'

/-- The word-character class \w backing the \b boundaries of the year
regex. -/
def isWordChar (c : Char) : Bool :=
  ('A' ≤ c && c ≤ 'Z') || ('a' ≤ c && c ≤ 'z') || isDigit09 c || c = '_'

/-- One attempt of /\b(20[0-9][0-9])\b/ at the head of the list, prev being
the character just before this position (none at the start of the text). -/
def yearAt (prev : Option Char) : List Char → Option (Char × Char)
  | '2' :: '0' :: d1 :: d2 :: rest =>
    if (match prev with | some p => !isWordChar p | none => true) &&
        isDigit09 d1 && isDigit09 d2 &&
        (match rest with | r :: _ => !isWordChar r | [] => true)
    then some (d1, d2) else none
  | _ => none

/-- Leftmost match of the year regex. -/
def findYear (prev : Option Char) : List Char → Option (Char × Char)
  | [] => none
  | c :: cs =>
    match yearAt prev (c :: cs) with
    | some r => some r
    | none => findYear (some c) cs

/-- extractYear (aiAnalysis): first 4-digit year in the text, kept only when
between 2008 and the current year (a clock read in the source, a parameter
here); the matched digits are returned as the year string. -/
def extractYear (currentYear : Nat) (text : String) : String :=
  match findYear none text.toList with
  | some (d1, d2) =>
    let year := 2000 + 10 * (d1.toNat - 48) + (d2.toNat - 48)
    if 2008 ≤ year ∧ year ≤ currentYear then String.mk ['2', '0', d1, d2] else ""
  | none => ""

/-- extractVehicleInfo (aiAnalysis): first matching model pattern, first
matching color pattern, extracted year; make is always "Tesla" and the
confidence depends on whether a model matched. -/
def extractVehicleInfo (currentYear : Nat) (text : String) : ExtractedVehicle :=
  let tl := (strToLower text).toList
  let model :=
    if containsL "cybertruck".toList tl then "Cybertruck"
    else if modelPatTest 's' tl then "Model S"
    else if modelPatTest '3' tl then "Model 3"
    else if modelPatTest 'x' tl then "Model X"
    else if modelPatTest 'y' tl then "Model Y"
    else ""
  let color :=
    if containsL "white".toList tl then "white"
    else if containsL "black".toList tl then "black"
    else if containsL "red".toList tl then "red"
    else if containsL "blue".toList tl then "blue"
    else if containsL "silver".toList tl then "silver"
    else if containsL "gray".toList tl || containsL "grey".toList tl then "gray"
    else ""
  { make := "Tesla", model := model, color := color,
    year := extractYear currentYear text,
    confidence := if model = "" then 0.3 else 0.9 }

/-- generateSummary (aiAnalysis, distinct from the caseManagement one):
template built from the extracted model, color and location, closed by a
damage phrase chosen from the original text. -/
def generateSummary (text : String) (locationInfo : ExtractedLocation)
    (vehicleInfo : ExtractedVehicle) : String :=
  let summary := if vehicleInfo.model = "" then "Tesla vandalism incident"
    else "Tesla " ++ vehicleInfo.model ++ " vandalism incident"
  let summary := if vehicleInfo.color = "" then summary
    else vehicleInfo.color ++ " " ++ summary
  let summary :=
    if locationInfo.city ≠ "" ∧ locationInfo.state ≠ "" then
      summary ++ " in " ++ locationInfo.city ++ ", " ++ locationInfo.state
    else summary
  let tl := strToLower text
  if jsIncludes tl "key" then summary ++ ". Vehicle was keyed"
  else if jsIncludes tl "window" &&
      (jsIncludes tl "break" || jsIncludes tl "broke" || jsIncludes tl "broken") then
    summary ++ ". Windows were broken"
  else if jsIncludes tl "graffiti" then summary ++ ". Vehicle was tagged with graffiti"
  else if jsIncludes tl "tire" || jsIncludes tl "tyre" then summary ++ ". Tires were damaged"
  else summary ++ ". Vehicle was damaged"

/-- Holds the analyzeTextContent result.  The entities field is not carried:
extractEntities feeds it, but nothing downstream of the analyzer reads it. -/
structure TextAnalysis where
  isRelevant : Bool
  isVandalism : Bool
  relevanceScore : ℚ
  hasTeslaReference : Bool
  hasVandalismReference : Bool
  locationInfo : ExtractedLocation
  vehicleInfo : ExtractedVehicle
  summary : String
deriving Repr, DecidableEq

/-- analyzeTextContent (aiAnalysis): keyword scores on the lowered text
(0.8 each, combined 0.4 to 0.6), location and vehicle extraction, and a
summary only when the combined score clears the relevance threshold. -/
def analyzeTextContent (currentYear : Nat) (text : String) : TextAnalysis :=
  let textLower := strToLower text
  let hasTeslaReference := teslaKeywords.any (fun k => jsIncludes textLower k)
  let hasVandalismReference := vandalismKeywords.any (fun k => jsIncludes textLower k)
  let teslaScore : ℚ := if hasTeslaReference then 0.8 else 0
  let vandalismScore : ℚ := if hasVandalismReference then 0.8 else 0
  let relevanceScore := teslaScore * 0.4 + vandalismScore * 0.6
  let locationInfo := extractLocationInfo text
  let vehicleInfo := extractVehicleInfo currentYear text
  let summary :=
    if relevanceScore > RELEVANCE_THRESHOLD then generateSummary text locationInfo vehicleInfo
    else ""
  { isRelevant := decide (relevanceScore > RELEVANCE_THRESHOLD),
    isVandalism := decide (relevanceScore > VANDALISM_THRESHOLD),
    relevanceScore := relevanceScore,
    hasTeslaReference := hasTeslaReference,
    hasVandalismReference := hasVandalismReference,
    locationInfo := locationInfo,
    vehicleInfo := vehicleInfo,
    summary := summary }

/-- The analyzer result as `createCaseFromSocialMedia` receives it:
searchTwitter passes tweet.analysis — the analyzeTextContent value —
unchanged.  Of the fields the pipeline reads, summary, locationInfo,
vehicleInfo and relevanceScore are present (city, state and country always
strings, possibly empty), while text and platform do not exist on the
object, and mediaUrls sits on the wrapper tweet next to analysis, not
inside it, so the analysis itself carries none. -/
def TextAnalysis.toAnalysis (t : TextAnalysis) : Analysis :=
  { summary := some t.summary,
    locationInfo := some { city := some t.locationInfo.city,
                           state := some t.locationInfo.state,
                           country := some t.locationInfo.country },
    vehicleInfo := some { model := t.vehicleInfo.model, color := t.vehicleInfo.color,
                          year := t.vehicleInfo.year },
    mediaUrls := [],
    relevanceScore := some t.relevanceScore,
    text := none,
    platform := none }

end aiAnalysis

/-- The analyzer output for the supercharger post, as the pipeline receives
it: analyzeTextContent run on the post text.  The current-year clock read
only feeds the year-pattern range check and the post carries no 4-digit
year, so every field is independent of it. -/
def superchargerAnalysis (currentYear : Nat) : Analysis :=
  (aiAnalysis.analyzeTextContent currentYear
    "Tesla Supercharger station spray painted").toAnalysis

/-- C5: the post classifies as a building target with damage ["graffiti"],
but `createTargetDetails` derives the building subtype from `analysis.text`
— a field the analyzer output does not carry (its text sits on the wrapper
object, not on the analysis) — so building_type becomes "other", not
"supercharger" — while `determineBuildingType` applied to the post content,
as generateHeadline and generateSummary do, does return "supercharger".
The last three parts pin the embedded analyzer output the pipeline
receives: no text field, empty-string city and state, empty-string vehicle
fields, and relevance score 0.32. -/
theorem C5_supercharger_bug (currentYear : Nat) :
    determineTargetType "Tesla Supercharger station spray painted"
      (superchargerAnalysis currentYear) = "building" ∧
    determineDamageType "Tesla Supercharger station spray painted"
      (superchargerAnalysis currentYear) = ["graffiti"] ∧
    (createTargetDetails
      (determineTargetType "Tesla Supercharger station spray painted"
        (superchargerAnalysis currentYear))
      (superchargerAnalysis currentYear)).building_type = some "other" ∧
    determineBuildingType "Tesla Supercharger station spray painted" = "supercharger" ∧
    (superchargerAnalysis currentYear).text = none ∧
    (superchargerAnalysis currentYear).locationInfo =
      some { city := some "", state := some "", country := some "US" } ∧
    (superchargerAnalysis currentYear).vehicleInfo =
      some { model := "", color := "", year := "" } ∧
    (superchargerAnalysis currentYear).relevanceScore = some 0.32 := by
  have hcy : superchargerAnalysis currentYear = superchargerAnalysis 0 := rfl
  rw [hcy]
  refine ⟨by decide, by decide, by decide, by decide, rfl, by decide, by decide, ?_⟩
  show some ((0.8 : ℚ) * 0.4 + 0 * 0.6) = some 0.32
  norm_num

theorem C1_witness :
    ∃ db2, createCaseFromSocialMedia Env.ok 0 srcB anaB db0 =
        (.ok { caseId := db0.nextId, isNewCase := true, isDuplicate := false }, db2) ∧
      db2.cases = db0.cases ++ [newCaseRow 0 db0.nextId (pipelineHeadline srcB anaB)
        (pipelineSummary srcB anaB) (pipelineTargetType srcB anaB)
        (pipelineTargetDetails srcB anaB) (pipelineLocationInfo anaB)
        (pipelineDamageType srcB anaB) anaB] ∧
      ∀ d ∈ pipelineDuplicates Env.ok 0 srcB anaB db0,
        0.6 < d.similarityScore →
          d.similarityScore ≤ 0.85 ∧
          ({ case_id := db0.nextId, related_case_id := d.case_.id,
             relationship_type := "possible_duplicate",
             relationship_strength := d.similarityScore,
             is_ai_generated := true } : RelatedCaseRow) ∈ db2.related_cases ∧
          ({ case_id := d.case_.id, related_case_id := db0.nextId,
             relationship_type := "possible_duplicate",
             relationship_strength := d.similarityScore,
             is_ai_generated := true } : RelatedCaseRow) ∈ db2.related_cases :=
  (C1_decision_policy 0 srcB anaB db0).2 (fun top ht => by
    rw [show pipelineDuplicates Env.ok 0 srcB anaB db0 = [] from rfl] at ht
    cases ht)

theorem C4_witness :
    0 ≤ similarityScore 3600000 c4li c4td ["keying"] c4case ∧
    similarityScore 3600000 c4li c4td ["keying"] c4case ≤ 1.2 :=
  C4_amended.1 3600000 c4li c4td ["keying"] c4case (by norm_num [ageHours, c4case])

theorem C7_witness :
    similarityScore 7200000 twoTagLi twoTagTd ["keying"] twoTagCase ≤
      similarityScore 3600000 twoTagLi twoTagTd ["keying"] twoTagCase ∧
    timeProximityScore (49 * 3600000) twoTagCase = 0 :=
  ⟨C7_time_monotone.1 3600000 7200000 twoTagLi twoTagTd ["keying"] twoTagCase
      (by norm_num [ageHours, twoTagCase]) (by norm_num [ageHours, twoTagCase])
      (by norm_num [ageHours, twoTagCase]),
    C7_time_monotone.2 (49 * 3600000) twoTagCase (by norm_num [ageHours, twoTagCase])⟩
